import Mathlib

/-!
# LearningOpenGL: the shader build pipeline

A shallow embedding of `1_GettingStarted/Common/shader.h` (class `Shader`) and of the
`create_shader_program` / `main` functions of the tutorial programs `FirstTriangle`,
`Exercise_2.4`, `Shaders_Vertex` and `Exercise_3.5`.

The programs talk to two collaborators that are not part of the repository's sources: the
OpenGL driver (entry points declared by `glad/glad.h`) and the C++ stream library.  The driver
is an explicit state (`World`) together with an arbitrary behaviour (`Driver`) that decides
every answer the driver gives; the file system is an arbitrary `FileSystem`.
-/

namespace LearningOpenGL

/-! ## Basic types -/

abbrev GLuint := Nat
abbrev GLint := Int
abbrev GLsizei := Nat

/-- Text is a sequence of characters (bytes of a `char` array or of a `std::string`). -/
abbrev Text := List Char

/-- The terminator of a C string. -/
def NUL : Char := Char.ofNat 0

/-- What `std::endl` inserts. -/
def endl : Text := [Char.ofNat 10]

/-- The characters a consumer of a `const char*` sees: everything before the first NUL. -/
def cstring (t : Text) : Text := t.takeWhile (fun c => c != NUL)

/-- A `float` argument, kept as its IEEE-754 binary32 bit pattern; it is only passed along. -/
structure GLfloat where
  bits : Nat
  deriving DecidableEq, Repr

/-- The two stage kinds passed to `glCreateShader`. -/
inductive ShaderType where
  | GL_VERTEX_SHADER
  | GL_FRAGMENT_SHADER
  deriving DecidableEq, Repr

/-- Buffer binding targets used by the tutorial programs. -/
inductive BufferTarget where
  | GL_ARRAY_BUFFER
  | GL_ELEMENT_ARRAY_BUFFER
  deriving DecidableEq, Repr

/-- A scalar uniform value as stored by the driver model. -/
inductive Scalar where
  | int (v : GLint)
  | float (x : GLfloat)
  deriving DecidableEq, Repr

/-- One call into the driver, with the arguments the programs pass.  Pointer arguments are
recorded by what they point to (`glShaderSource`, `glGetUniformLocation`) or left out
(output buffers, vertex data); `float` arguments of the render loop are left out. -/
inductive GLCall where
  | glCreateShader (type : ShaderType)
  | glShaderSource (shader : GLuint) (count : GLsizei) (source : Text)
  | glCompileShader (shader : GLuint)
  | glGetShaderiv_COMPILE_STATUS (shader : GLuint)
  | glGetShaderInfoLog (shader : GLuint) (bufSize : GLsizei)
  | glCreateProgram
  | glAttachShader (program shader : GLuint)
  | glLinkProgram (program : GLuint)
  | glGetProgramiv_LINK_STATUS (program : GLuint)
  | glGetProgramInfoLog (program : GLuint) (bufSize : GLsizei)
  | glDeleteShader (shader : GLuint)
  | glUseProgram (program : GLuint)
  | glGetUniformLocation (program : GLuint) (name : Text)
  | glUniform1i (location : GLint) (v0 : GLint)
  | glUniform1f (location : GLint) (v0 : GLfloat)
  | glUniform4f (location : GLint)
  | glViewport (x y : GLint) (width height : GLsizei)
  | glGenVertexArrays (n : GLsizei)
  | glBindVertexArray (array : GLuint)
  | glGenBuffers (n : GLsizei)
  | glBindBuffer (target : BufferTarget) (buffer : GLuint)
  | glBufferData (target : BufferTarget) (size : Nat)
  | glVertexAttribPointer (index : GLuint) (size : GLint) (stride : GLsizei) (pointer : Nat)
  | glEnableVertexAttribArray (index : GLuint)
  | glClearColor
  | glClear
  | glDrawElements (count : GLsizei)
  | glDrawArrays (first : GLint) (count : GLsizei)
  deriving DecidableEq, Repr

/-- The state the programs act on: the driver's state and the text written to `std::cout`. -/
structure World where
  /-- every driver call issued so far, oldest first -/
  calls : List GLCall
  /-- the stage (shader object) handles that are live in the driver -/
  liveShaders : List GLuint
  /-- the context's single "currently active program" slot -/
  activeProgram : GLuint
  /-- the scalar stored for a uniform of a program, by (program, location) -/
  uniforms : GLuint → GLint → Option Scalar
  /-- the text written to standard output so far -/
  out : Text

/-- A behaviour of the driver: every answer the driver gives to the programs, as an arbitrary
function of the state it is asked in (which holds the whole call history). -/
structure Driver where
  /-- the handle `glCreateShader` returns -/
  newShader : World → ShaderType → GLuint
  /-- the value `glGetShaderiv(shader, GL_COMPILE_STATUS, _)` stores -/
  compileStatus : World → GLuint → GLint
  /-- the diagnostic log the driver holds for a stage -/
  shaderInfoLog : World → GLuint → Text
  /-- the handle `glCreateProgram` returns -/
  newProgram : World → GLuint
  /-- the value `glGetProgramiv(program, GL_LINK_STATUS, _)` stores -/
  linkStatus : World → GLuint → GLint
  /-- the diagnostic log the driver holds for a program -/
  programInfoLog : World → GLuint → Text
  /-- the active uniforms of a program: names with their locations -/
  activeUniforms : World → GLuint → List (Text × GLint)
  /-- the name `glGenVertexArrays` / `glGenBuffers` returns -/
  genName : World → GLuint

/-- Record a driver call in the history. -/
def World.log (w : World) (c : GLCall) : World :=
  { w with calls := w.calls ++ [c] }

/-- Insert text into `std::cout`. -/
def World.cout (w : World) (t : Text) : World :=
  { w with out := w.out ++ t }

/-! ## The driver entry points

The entry points are declared by `glad/glad.h` and implemented by the OpenGL driver; neither is
among the sources.  Each one is modelled as a step on `World`: it records the call, answers
what the `Driver` behaviour decides, and updates the explicit state (live stage handles,
active-program slot, uniform store) the way the spec describes the driver. -/

/-- Modelled from the spec: the driver's `glCreateShader` (declared by `glad/glad.h`, outside
the sources).  It returns a stage handle, which becomes live; the handle 0 reports that no
stage object could be created. -/
def glCreateShader (d : Driver) (type : ShaderType) (w : World) : GLuint × World :=
  let h := d.newShader w type
  (h, { w.log (.glCreateShader type) with
          liveShaders := if h = 0 then w.liveShaders else h :: w.liveShaders })

/-- Modelled from the spec: the driver's `glShaderSource(shader, 1, &source, NULL)`; with a
NULL length array the driver reads the source as a null-terminated string. -/
def glShaderSource (shader : GLuint) (source : Text) (w : World) : World :=
  w.log (.glShaderSource shader 1 (cstring source))

/-- Modelled from the spec: the driver's `glCompileShader`, which triggers compilation. -/
def glCompileShader (shader : GLuint) (w : World) : World :=
  w.log (.glCompileShader shader)

/-- Modelled from the spec: the driver's `glGetShaderiv(shader, GL_COMPILE_STATUS, &success)`;
the result is the value stored in `success`. -/
def glGetShaderiv (d : Driver) (shader : GLuint) (w : World) : GLint × World :=
  (d.compileStatus w shader, w.log (.glGetShaderiv_COMPILE_STATUS shader))

/-- Modelled from the spec: what the driver's info-log queries store in the caller's buffer.
The spec has the log as a text of arbitrary length fetched by a follow-up query; the query is
told the capacity `bufSize` of the buffer and, as the OpenGL API defines it, stores at most
`bufSize - 1` characters of the log followed by a NUL. -/
def fillInfoLog (log : Text) (bufSize : GLsizei) : Text :=
  log.take (bufSize - 1) ++ [NUL]

/-- Modelled from the spec: the driver's `glGetShaderInfoLog(shader, bufSize, NULL, infoLog)`;
the result is the content of `infoLog`. -/
def glGetShaderInfoLog (d : Driver) (shader : GLuint) (bufSize : GLsizei) (w : World) :
    Text × World :=
  (fillInfoLog (d.shaderInfoLog w shader) bufSize, w.log (.glGetShaderInfoLog shader bufSize))

/-- Modelled from the spec: the driver's `glCreateProgram`. -/
def glCreateProgram (d : Driver) (w : World) : GLuint × World :=
  (d.newProgram w, w.log .glCreateProgram)

/-- Modelled from the spec: the driver's `glAttachShader`. -/
def glAttachShader (program shader : GLuint) (w : World) : World :=
  w.log (.glAttachShader program shader)

/-- Modelled from the spec: the driver's `glLinkProgram`, which requests linking. -/
def glLinkProgram (program : GLuint) (w : World) : World :=
  w.log (.glLinkProgram program)

/-- Modelled from the spec: the driver's `glGetProgramiv(program, GL_LINK_STATUS, &success)`. -/
def glGetProgramiv (d : Driver) (program : GLuint) (w : World) : GLint × World :=
  (d.linkStatus w program, w.log (.glGetProgramiv_LINK_STATUS program))

/-- Modelled from the spec: the driver's `glGetProgramInfoLog(program, bufSize, NULL, infoLog)`. -/
def glGetProgramInfoLog (d : Driver) (program : GLuint) (bufSize : GLsizei) (w : World) :
    Text × World :=
  (fillInfoLog (d.programInfoLog w program) bufSize, w.log (.glGetProgramInfoLog program bufSize))

/-- Modelled from the spec: the driver's `glDeleteShader`, which releases a stage handle: the
handle leaves the live set. -/
def glDeleteShader (shader : GLuint) (w : World) : World :=
  { w.log (.glDeleteShader shader) with
      liveShaders := w.liveShaders.filter (fun h => h != shader) }

/-- Modelled from the spec: the driver's `glUseProgram`, which fills the context's single
active-program slot. -/
def glUseProgram (program : GLuint) (w : World) : World :=
  { w.log (.glUseProgram program) with activeProgram := program }

/-- The "not found" sentinel of uniform name resolution. -/
def notFound : GLint := -1

/-- Modelled from the spec: the driver's `glGetUniformLocation`, which resolves a name against
the active uniforms of a program and yields the sentinel -1 on a miss. -/
def glGetUniformLocation (d : Driver) (program : GLuint) (name : Text) (w : World) :
    GLint × World :=
  (((d.activeUniforms w program).lookup (cstring name)).getD notFound,
    w.log (.glGetUniformLocation program (cstring name)))

/-- Store a scalar for a uniform of the currently active program. -/
def World.store (w : World) (location : GLint) (v : Scalar) : World :=
  { w with uniforms := fun p l =>
      if p = w.activeProgram ∧ l = location then some v else w.uniforms p l }

/-- Modelled from the spec: the driver's `glUniform1i`, which writes an integer to the uniform
at `location` of the currently active program; the location -1 is silently ignored. -/
def glUniform1i (location : GLint) (v0 : GLint) (w : World) : World :=
  if location = notFound then w.log (.glUniform1i location v0)
  else (w.log (.glUniform1i location v0)).store location (.int v0)

/-- Modelled from the spec: the driver's `glUniform1f`, the `float` counterpart of
`glUniform1i`. -/
def glUniform1f (location : GLint) (v0 : GLfloat) (w : World) : World :=
  if location = notFound then w.log (.glUniform1f location v0)
  else (w.log (.glUniform1f location v0)).store location (.float v0)

/-! ## The stream library -/

/-- What `stringStream << file.rdbuf()` yields for an opened file: the characters that reached
the string stream, and whether the read ended in an error instead of at the end of the file.
The insertion reads the stream buffer directly; an error sets `failbit` on the string stream,
whose exception mask is empty, so nothing is raised and `str()` returns the characters
inserted so far. -/
structure ReadResult where
  text : Text
  failed : Bool
  deriving DecidableEq, Repr

/-- A behaviour of the file system as seen through `std::ifstream` with
`exceptions(failbit | badbit)`: opening a path succeeds or raises `std::ifstream::failure`
with a `what()` text; reading an opened file through its stream buffer yields a
`ReadResult`. -/
structure FileSystem where
  openFile : Text → Except Text Unit
  readAll : Text → ReadResult

/-- The exceptions that leave the `Shader` constructor. -/
inductive Exception where
  /-- the `std::ifstream::failure` rethrown by `throw;` -/
  | ifstream_failure (what : Text)
  /-- the value of `throw std::exception();` -/
  | std_exception
  deriving DecidableEq, Repr

/-! ## `Common/shader.h` -/

/-- Class `Shader`: its only data member is the program ID. -/
structure Shader where
  ID : GLuint
  deriving DecidableEq, Repr

/-- The `try` block of the constructor (shader.h lines 36-51): open both files, where the
first `std::ifstream::failure` leaves the block; then insert both stream buffers into the
string streams (lines 43-44), which raises nothing even when a read fails, and take the
strings.  Closing the two input streams is taken to succeed. -/
def Shader.readSources (fs : FileSystem) (vertexPath fragmentPath : Text) :
    Except Text (Text × Text) :=
  match fs.openFile vertexPath with
  | .error e => .error e
  | .ok _ =>
    match fs.openFile fragmentPath with
    | .error e => .error e
    | .ok _ =>
      let vertexCode := (fs.readAll vertexPath).text
      let fragmentCode := (fs.readAll fragmentPath).text
      .ok (vertexCode, fragmentCode)

/-- Part 2 of the constructor (shader.h lines 58-107): compile both stages, link, release. -/
def Shader.build (d : Driver) (vShaderCode fShaderCode : Text) (w : World) :
    Except Exception Shader × World :=
  let r1 := glCreateShader d .GL_VERTEX_SHADER w
  let vertex := r1.1
  let w := glShaderSource vertex vShaderCode r1.2
  let w := glCompileShader vertex w
  let r2 := glGetShaderiv d vertex w
  let success := r2.1
  if success = 0 then
    let r3 := glGetShaderInfoLog d vertex 512 r2.2
    let infoLog := r3.1
    let w := r3.2.cout ("Vertex shader compilation failed: ".toList ++ cstring infoLog ++ endl)
    (.error .std_exception, w)
  else
    let r4 := glCreateShader d .GL_FRAGMENT_SHADER r2.2
    let fragment := r4.1
    let w := glShaderSource fragment fShaderCode r4.2
    let w := glCompileShader fragment w
    let r5 := glGetShaderiv d fragment w
    let success := r5.1
    if success = 0 then
      let r6 := glGetShaderInfoLog d fragment 512 r5.2
      let infoLog := r6.1
      let w := r6.2.cout ("Fragment shader compilation failed: ".toList ++ cstring infoLog ++ endl)
      (.error .std_exception, w)
    else
      let r7 := glCreateProgram d r5.2
      let ID := r7.1
      let w := glAttachShader ID vertex r7.2
      let w := glAttachShader ID fragment w
      let w := glLinkProgram ID w
      let r8 := glGetProgramiv d ID w
      let success := r8.1
      if success = 0 then
        let r9 := glGetProgramInfoLog d ID 512 r8.2
        let infoLog := r9.1
        let w := r9.2.cout ("Program linking failed: ".toList ++ cstring infoLog ++ endl)
        (.error .std_exception, w)
      else
        let w := glDeleteShader vertex r8.2
        let w := glDeleteShader fragment w
        (.ok { ID := ID }, w)

/-- Constructor `Shader::Shader(vertexPath, fragmentPath)` (shader.h lines 28-107). -/
def Shader.ctor (d : Driver) (fs : FileSystem) (vertexPath fragmentPath : Text) (w : World) :
    Except Exception Shader × World :=
  match Shader.readSources fs vertexPath fragmentPath with
  | .error what =>
    (.error (.ifstream_failure what),
      w.cout ("Failed to read shader file: ".toList ++ what ++ endl))
  | .ok (vertexCode, fragmentCode) => Shader.build d vertexCode fragmentCode w

/-- Member `Shader::use` (shader.h lines 109-112). -/
def Shader.use (s : Shader) (w : World) : World :=
  glUseProgram s.ID w

/-- Member `Shader::setBool` (shader.h lines 114-117); `int(value)` is 1 for true, 0 for false. -/
def Shader.setBool (d : Driver) (s : Shader) (name : Text) (value : Bool) (w : World) : World :=
  let r := glGetUniformLocation d s.ID name w
  glUniform1i r.1 (if value then 1 else 0) r.2

/-- Member `Shader::setInt` (shader.h lines 119-122). -/
def Shader.setInt (d : Driver) (s : Shader) (name : Text) (value : GLint) (w : World) : World :=
  let r := glGetUniformLocation d s.ID name w
  glUniform1i r.1 value r.2

/-- Member `Shader::setFloat` (shader.h lines 124-127). -/
def Shader.setFloat (d : Driver) (s : Shader) (name : Text) (value : GLfloat) (w : World) :
    World :=
  let r := glGetUniformLocation d s.ID name w
  glUniform1f r.1 value r.2

/-! ## The remaining driver entry points used by the `main` functions -/

/-- Modelled from the spec: the driver's `glViewport`; only recorded. -/
def glViewport (x y : GLint) (width height : GLsizei) (w : World) : World :=
  w.log (.glViewport x y width height)

/-- Modelled from the spec: the driver's `glGenVertexArrays(n, &name)`; yields the new name. -/
def glGenVertexArrays (d : Driver) (n : GLsizei) (w : World) : GLuint × World :=
  (d.genName w, w.log (.glGenVertexArrays n))

/-- Modelled from the spec: the driver's `glBindVertexArray`; only recorded. -/
def glBindVertexArray (array : GLuint) (w : World) : World :=
  w.log (.glBindVertexArray array)

/-- Modelled from the spec: the driver's `glGenBuffers(n, &name)`; yields the new name. -/
def glGenBuffers (d : Driver) (n : GLsizei) (w : World) : GLuint × World :=
  (d.genName w, w.log (.glGenBuffers n))

/-- Modelled from the spec: the driver's `glBindBuffer`; only recorded. -/
def glBindBuffer (target : BufferTarget) (buffer : GLuint) (w : World) : World :=
  w.log (.glBindBuffer target buffer)

/-- Modelled from the spec: the driver's `glBufferData`; only recorded, with the byte size. -/
def glBufferData (target : BufferTarget) (size : Nat) (w : World) : World :=
  w.log (.glBufferData target size)

/-- Modelled from the spec: the driver's `glVertexAttribPointer`; only recorded. -/
def glVertexAttribPointer (index : GLuint) (size : GLint) (stride : GLsizei) (pointer : Nat)
    (w : World) : World :=
  w.log (.glVertexAttribPointer index size stride pointer)

/-- Modelled from the spec: the driver's `glEnableVertexAttribArray`; only recorded. -/
def glEnableVertexAttribArray (index : GLuint) (w : World) : World :=
  w.log (.glEnableVertexAttribArray index)

/-- Modelled from the spec: the driver's `glClearColor`; only recorded. -/
def glClearColor (w : World) : World :=
  w.log .glClearColor

/-- Modelled from the spec: the driver's `glClear`; only recorded. -/
def glClear (w : World) : World :=
  w.log .glClear

/-- Modelled from the spec: the driver's `glDrawElements(GL_TRIANGLES, count, ..)`, a draw
call; only recorded. -/
def glDrawElements (count : GLsizei) (w : World) : World :=
  w.log (.glDrawElements count)

/-- Modelled from the spec: the driver's `glDrawArrays(GL_TRIANGLES, first, count)`, a draw
call; only recorded. -/
def glDrawArrays (first : GLint) (count : GLsizei) (w : World) : World :=
  w.log (.glDrawArrays first count)

/-- Modelled from the spec: the driver's `glUniform4f`, which writes a vector uniform; the
scalar store does not hold vectors, so the call is only recorded. -/
def glUniform4f (location : GLint) (w : World) : World :=
  w.log (.glUniform4f location)

/-- A call that creates, attaches to, links or queries a program object. -/
def GLCall.isProgramCall : GLCall → Bool
  | .glCreateProgram => true
  | .glAttachShader _ _ => true
  | .glLinkProgram _ => true
  | .glGetProgramiv_LINK_STATUS _ => true
  | .glGetProgramInfoLog _ _ => true
  | _ => false

namespace Shaders_Vertex

/-- The global `vertexShaderSource` (lines 14-23). -/
def vertexShaderSource : Text :=
  ("#version 330 core\n" ++
   "layout (location = 0) in vec3 aPos;\n" ++
   "layout (location = 1) in vec3 aColor;\n" ++
   "out vec3 ourColor;\n" ++
   "void main()\n" ++
   "\x7b\n" ++
   "  gl_Position = vec4(aPos, 1.0);\n" ++
   "  ourColor = aColor;\n" ++
   "\x7d\x00").toList

/-- The global `fragmentShaderSource` (lines 25-32). -/
def fragmentShaderSource : Text :=
  ("#version 330 core\n" ++
   "out vec4 FragColor;\n" ++
   "in vec3 ourColor;\n" ++
   "void main()\n" ++
   "\x7b\n" ++
   "  FragColor = vec4(ourColor, 1.0);\n" ++
   "\x7d\x00").toList

/-- Function `create_shader_program(shaderProgram, vertexShaderSource, fragmentShaderSource)`
(lines 34-90).  The argument `shaderProgram` is the value the caller's location holds at the
call; the result is the returned `int`, the value the location holds at the return, and the
state. -/
def create_shader_program (d : Driver) (shaderProgram : GLuint)
    (vertexShaderSource fragmentShaderSource : Text) (w : World) : GLint × GLuint × World :=
  let r1 := glCreateShader d .GL_VERTEX_SHADER w
  let vertexShader := r1.1
  let w := glShaderSource vertexShader vertexShaderSource r1.2
  let w := glCompileShader vertexShader w
  let r2 := glGetShaderiv d vertexShader w
  let success := r2.1
  if success = 0 then
    let r3 := glGetShaderInfoLog d vertexShader 512 r2.2
    let infoLog := r3.1
    let w := r3.2.cout ("Vertex shader compilation failed: ".toList ++ cstring infoLog ++ endl)
    (success, shaderProgram, w)
  else
    let r4 := glCreateShader d .GL_FRAGMENT_SHADER r2.2
    let fragmentShader := r4.1
    let w := glShaderSource fragmentShader fragmentShaderSource r4.2
    let w := glCompileShader fragmentShader w
    let r5 := glGetShaderiv d fragmentShader w
    let success := r5.1
    if success = 0 then
      let r6 := glGetShaderInfoLog d fragmentShader 512 r5.2
      let infoLog := r6.1
      let w := r6.2.cout
        ("Fragment shader compilation failed: ".toList ++ cstring infoLog ++ endl)
      (success, shaderProgram, w)
    else
      let r7 := glCreateProgram d r5.2
      let shaderProgram := r7.1
      let w := glAttachShader shaderProgram vertexShader r7.2
      let w := glAttachShader shaderProgram fragmentShader w
      let w := glLinkProgram shaderProgram w
      let r8 := glGetProgramiv d shaderProgram w
      let success := r8.1
      if success = 0 then
        let r9 := glGetProgramInfoLog d shaderProgram 512 r8.2
        let infoLog := r9.1
        let w := r9.2.cout ("Shader program failed to link: ".toList ++ cstring infoLog ++ endl)
        (success, shaderProgram, w)
      else
        let w := glDeleteShader vertexShader r8.2
        let w := glDeleteShader fragmentShader w
        (success, shaderProgram, w)

/-- The body of the render loop of `main` (lines 167-190), run `n` times. -/
def renderLoop (d : Driver) (shaderProgram VAO : GLuint) : Nat → World → World
  | 0, w => w
  | n + 1, w =>
    let w := glClearColor w
    let w := glClear w
    let r := glGetUniformLocation d shaderProgram "ourColor".toList w
    let vertexColorLocation := r.1
    let w := glUseProgram shaderProgram r.2
    let w := glUniform4f vertexColorLocation w
    let w := glBindVertexArray VAO w
    let w := glDrawArrays 0 3 w
    renderLoop d shaderProgram VAO n w

end Shaders_Vertex

/-! ## `FirstTriangle/main.cpp` -/

namespace FirstTriangle

/-- The global `vertexShaderSource` (lines 19-25). -/
def vertexShaderSource : Text :=
  ("#version 330 core\n" ++
   "layout (location = 0) in vec3 aPos;\n" ++
   "void main()\n" ++
   "\x7b\n" ++
   "  gl_Position = vec4(aPos.x, aPos.y, aPos.z, 1.0);\n" ++
   "\x7d\x00").toList

/-- The global `fragmentShaderSource` (lines 27-33). -/
def fragmentShaderSource : Text :=
  ("#version 330 core\n" ++
   "out vec4 FragColor;\n" ++
   "void main()\n" ++
   "\x7b\n" ++
   "  FragColor = vec4(1.0f, 0.5f, 0.2f, 1.0f);\n" ++
   "\x7d\x00").toList

/-- Function `create_shader_program(shaderProgram)` (lines 35-88); it reads the two global
sources.  Arguments and result as in `Shaders_Vertex.create_shader_program`. -/
def create_shader_program (d : Driver) (shaderProgram : GLuint) (w : World) :
    GLint × GLuint × World :=
  let r1 := glCreateShader d .GL_VERTEX_SHADER w
  let vertexShader := r1.1
  let w := glShaderSource vertexShader vertexShaderSource r1.2
  let w := glCompileShader vertexShader w
  let r2 := glGetShaderiv d vertexShader w
  let success := r2.1
  if success = 0 then
    let r3 := glGetShaderInfoLog d vertexShader 512 r2.2
    let infoLog := r3.1
    let w := r3.2.cout ("Vertex shader compilation failed: ".toList ++ cstring infoLog ++ endl)
    (success, shaderProgram, w)
  else
    let r4 := glCreateShader d .GL_FRAGMENT_SHADER r2.2
    let fragmentShader := r4.1
    let w := glShaderSource fragmentShader fragmentShaderSource r4.2
    let w := glCompileShader fragmentShader w
    let r5 := glGetShaderiv d fragmentShader w
    let success := r5.1
    if success = 0 then
      let r6 := glGetShaderInfoLog d fragmentShader 512 r5.2
      let infoLog := r6.1
      let w := r6.2.cout
        ("Fragment shader compilation failed: ".toList ++ cstring infoLog ++ endl)
      (success, shaderProgram, w)
    else
      let r7 := glCreateProgram d r5.2
      let shaderProgram := r7.1
      let w := glAttachShader shaderProgram vertexShader r7.2
      let w := glAttachShader shaderProgram fragmentShader w
      let w := glLinkProgram shaderProgram w
      let r8 := glGetProgramiv d shaderProgram w
      let success := r8.1
      if success = 0 then
        let r9 := glGetProgramInfoLog d shaderProgram 512 r8.2
        let infoLog := r9.1
        let w := r9.2.cout ("Shader program failed to link: ".toList ++ cstring infoLog ++ endl)
        (success, shaderProgram, w)
      else
        let w := glDeleteShader vertexShader r8.2
        let w := glDeleteShader fragmentShader w
        (success, shaderProgram, w)

/-- The body of the render loop of `main` (lines 165-181), run `n` times. -/
def renderLoop (shaderProgram VAO : GLuint) : Nat → World → World
  | 0, w => w
  | n + 1, w =>
    let w := glClearColor w
    let w := glClear w
    let w := glUseProgram shaderProgram w
    let w := glBindVertexArray VAO w
    let w := glDrawElements 6 w
    renderLoop shaderProgram VAO n w

end FirstTriangle

/-! ## `Exercise_2.4/main.cpp` -/

namespace Exercise_2_4

/-- The global `vertexShaderSource` (lines 19-25). -/
def vertexShaderSource : Text :=
  ("#version 330 core\n" ++
   "layout (location = 0) in vec3 aPos;\n" ++
   "void main()\n" ++
   "\x7b\n" ++
   "  gl_Position = vec4(aPos.x, aPos.y, aPos.z, 1.0);\n" ++
   "\x7d\x00").toList

/-- The global `fragmentShaderSource` (lines 27-33). -/
def fragmentShaderSource : Text :=
  ("#version 330 core\n" ++
   "out vec4 FragColor;\n" ++
   "void main()\n" ++
   "\x7b\n" ++
   "  FragColor = vec4(1.0f, 0.5f, 0.2f, 1.0f);\n" ++
   "\x7d\x00").toList

/-- Function `create_shader_program(shaderProgram)` (lines 35-88); it reads the two global
sources.  Arguments and result as in `Shaders_Vertex.create_shader_program`. -/
def create_shader_program (d : Driver) (shaderProgram : GLuint) (w : World) :
    GLint × GLuint × World :=
  let r1 := glCreateShader d .GL_VERTEX_SHADER w
  let vertexShader := r1.1
  let w := glShaderSource vertexShader vertexShaderSource r1.2
  let w := glCompileShader vertexShader w
  let r2 := glGetShaderiv d vertexShader w
  let success := r2.1
  if success = 0 then
    let r3 := glGetShaderInfoLog d vertexShader 512 r2.2
    let infoLog := r3.1
    let w := r3.2.cout ("Vertex shader compilation failed: ".toList ++ cstring infoLog ++ endl)
    (success, shaderProgram, w)
  else
    let r4 := glCreateShader d .GL_FRAGMENT_SHADER r2.2
    let fragmentShader := r4.1
    let w := glShaderSource fragmentShader fragmentShaderSource r4.2
    let w := glCompileShader fragmentShader w
    let r5 := glGetShaderiv d fragmentShader w
    let success := r5.1
    if success = 0 then
      let r6 := glGetShaderInfoLog d fragmentShader 512 r5.2
      let infoLog := r6.1
      let w := r6.2.cout
        ("Fragment shader compilation failed: ".toList ++ cstring infoLog ++ endl)
      (success, shaderProgram, w)
    else
      let r7 := glCreateProgram d r5.2
      let shaderProgram := r7.1
      let w := glAttachShader shaderProgram vertexShader r7.2
      let w := glAttachShader shaderProgram fragmentShader w
      let w := glLinkProgram shaderProgram w
      let r8 := glGetProgramiv d shaderProgram w
      let success := r8.1
      if success = 0 then
        let r9 := glGetProgramInfoLog d shaderProgram 512 r8.2
        let infoLog := r9.1
        let w := r9.2.cout ("Shader program failed to link: ".toList ++ cstring infoLog ++ endl)
        (success, shaderProgram, w)
      else
        let w := glDeleteShader vertexShader r8.2
        let w := glDeleteShader fragmentShader w
        (success, shaderProgram, w)

/-- The body of the render loop of `main` (lines 175-193), run `n` times. -/
def renderLoop (shaderProgram VAO1 VAO2 : GLuint) : Nat → World → World
  | 0, w => w
  | n + 1, w =>
    let w := glClearColor w
    let w := glClear w
    let w := glUseProgram shaderProgram w
    let w := glBindVertexArray VAO1 w
    let w := glDrawArrays 0 3 w
    let w := glBindVertexArray VAO2 w
    let w := glDrawArrays 0 3 w
    renderLoop shaderProgram VAO1 VAO2 n w

end Exercise_2_4

/-! ## `Exercise_3.5/main.cpp` -/

namespace Exercise_3_5

/-- The `float` 0.5 passed to `setFloat` (line 93), as its binary32 bit pattern 0x3F000000. -/
def half : GLfloat := { bits := 0x3F000000 }

/-- One pass through the uniform part of the render loop (lines 92-93):
`shader.use(); shader.setFloat("hOffset", 0.5);`. -/
def useAndSet (d : Driver) (shader : Shader) (w : World) : World :=
  let w := shader.use w
  shader.setFloat d "hOffset".toList half w

/-- The body of the render loop of `main` (lines 83-101), run `n` times. -/
def renderLoop (d : Driver) (shader : Shader) (VAO : GLuint) : Nat → World → World
  | 0, w => w
  | n + 1, w =>
    let w := glClearColor w
    let w := glClear w
    let w := useAndSet d shader w
    let w := glBindVertexArray VAO w
    let w := glDrawArrays 0 3 w
    renderLoop d shader VAO n w

end Exercise_3_5

/-! ## Observations of one build attempt -/

/-- The driver calls a function issued: the history of the state it returned without the
history of the state it started in. -/
def issued (before after : World) : List GLCall :=
  after.calls.drop before.calls.length

/-- The handles and statuses of one build attempt: what the driver answers when the calls of a
build (create, source, compile and query the vertex stage; the same for the fragment stage;
create a program, attach both stages, link and query) are issued one after the other from the
state `w`. -/
structure Attempt where
  /-- the handle `glCreateShader(GL_VERTEX_SHADER)` returned -/
  vertex : GLuint
  /-- the vertex stage's compile status -/
  vertexStatus : GLint
  /-- the diagnostic log the driver holds for the vertex stage when it is queried -/
  vertexLog : Text
  /-- the handle `glCreateShader(GL_FRAGMENT_SHADER)` returned -/
  fragment : GLuint
  /-- the fragment stage's compile status -/
  fragmentStatus : GLint
  /-- the diagnostic log the driver holds for the fragment stage when it is queried -/
  fragmentLog : Text
  /-- the handle `glCreateProgram` returned -/
  program : GLuint
  /-- the link status of that program -/
  linkStatus : GLint
  /-- the diagnostic log the driver holds for the program when it is queried -/
  linkLog : Text

/-- The observations of the build attempt for the given sources that starts in `w`. -/
def Attempt.of (d : Driver) (vertexSource fragmentSource : Text) (w : World) : Attempt :=
  let r1 := glCreateShader d .GL_VERTEX_SHADER w
  let r2 := glGetShaderiv d r1.1 (glCompileShader r1.1 (glShaderSource r1.1 vertexSource r1.2))
  let r4 := glCreateShader d .GL_FRAGMENT_SHADER r2.2
  let r5 := glGetShaderiv d r4.1
    (glCompileShader r4.1 (glShaderSource r4.1 fragmentSource r4.2))
  let r7 := glCreateProgram d r5.2
  let r8 := glGetProgramiv d r7.1
    (glLinkProgram r7.1 (glAttachShader r7.1 r4.1 (glAttachShader r7.1 r1.1 r7.2)))
  { vertex := r1.1
    vertexStatus := r2.1
    vertexLog := d.shaderInfoLog r2.2 r1.1
    fragment := r4.1
    fragmentStatus := r5.1
    fragmentLog := d.shaderInfoLog r5.2 r4.1
    program := r7.1
    linkStatus := r8.1
    linkLog := d.programInfoLog r8.2 r7.1 }

/-! ## Sample behaviours, for evaluating the programs -/

/-- The state of a fresh context: no call issued, nothing live, nothing written. -/
def World.fresh : World :=
  { calls := []
    liveShaders := []
    activeProgram := 0
    uniforms := fun _ _ => none
    out := [] }

/-- A driver that hands out the stage handles 1 (vertex) and 2 (fragment) and the program
handle 3, reports the given statuses and logs, and has the one active uniform `hOffset` at
location 0 in every program. -/
def sampleDriver (vertexStatus fragmentStatus linkStatus : GLint)
    (vertexLog fragmentLog linkLog : Text) : Driver :=
  { newShader := fun _ t =>
      match t with
      | .GL_VERTEX_SHADER => 1
      | .GL_FRAGMENT_SHADER => 2
    compileStatus := fun _ h => if h = 1 then vertexStatus else fragmentStatus
    shaderInfoLog := fun _ h => if h = 1 then vertexLog else fragmentLog
    newProgram := fun _ => 3
    linkStatus := fun _ _ => linkStatus
    programInfoLog := fun _ _ => linkLog
    activeUniforms := fun _ _ => [("hOffset".toList, 0)]
    genName := fun w => w.calls.length + 1 }

/-- A file system in which every path opens and holds the text `void main() {}`. -/
def sampleFiles : FileSystem :=
  { openFile := fun _ => .ok ()
    readAll := fun _ => { text := "void main() \x7b\x7d".toList, failed := false } }

/-- A file system in which no path can be opened. -/
def noFiles : FileSystem :=
  { openFile := fun _ => .error "basic_ios::clear".toList
    readAll := fun _ => { text := [], failed := true } }

/-- A file system in which every path opens (a directory, say) and every read fails at once:
no character reaches the string stream. -/
def unreadableFiles : FileSystem :=
  { openFile := fun _ => .ok ()
    readAll := fun _ => { text := [], failed := true } }

/-- The calls of a build attempt up to the vertex stage's status query. -/
def vertexCalls (a : Attempt) (vertexSource : Text) : List GLCall :=
  [.glCreateShader .GL_VERTEX_SHADER,
   .glShaderSource a.vertex 1 (cstring vertexSource),
   .glCompileShader a.vertex,
   .glGetShaderiv_COMPILE_STATUS a.vertex]

/-- The calls of a build attempt from the creation of the fragment stage up to its status
query. -/
def fragmentCalls (a : Attempt) (fragmentSource : Text) : List GLCall :=
  [.glCreateShader .GL_FRAGMENT_SHADER,
   .glShaderSource a.fragment 1 (cstring fragmentSource),
   .glCompileShader a.fragment,
   .glGetShaderiv_COMPILE_STATUS a.fragment]

/-- The calls of a build attempt from the creation of the program up to the link status
query. -/
def linkCalls (a : Attempt) : List GLCall :=
  [.glCreateProgram,
   .glAttachShader a.program a.vertex,
   .glAttachShader a.program a.fragment,
   .glLinkProgram a.program,
   .glGetProgramiv_LINK_STATUS a.program]

/-- The live set after a stage handle was handed out. -/
def addLive (h : GLuint) (live : List GLuint) : List GLuint :=
  if h = 0 then live else h :: live

/-- The calls one build attempt issues, by its statuses: an attempt stops after the info-log
query of the first status that is failure, and releases both stages after a successful link. -/
def attemptCalls (a : Attempt) (vertexSource fragmentSource : Text) : List GLCall :=
  if a.vertexStatus = 0 then
    vertexCalls a vertexSource ++ [.glGetShaderInfoLog a.vertex 512]
  else if a.fragmentStatus = 0 then
    vertexCalls a vertexSource ++ fragmentCalls a fragmentSource ++
      [.glGetShaderInfoLog a.fragment 512]
  else if a.linkStatus = 0 then
    vertexCalls a vertexSource ++ fragmentCalls a fragmentSource ++ linkCalls a ++
      [.glGetProgramInfoLog a.program 512]
  else
    vertexCalls a vertexSource ++ fragmentCalls a fragmentSource ++ linkCalls a ++
      [.glDeleteShader a.vertex, .glDeleteShader a.fragment]

/-- What it means for the calls `cs` of one build attempt to stop at a failed stage: after a
vertex failure only the vertex stage was created, given source, compiled and queried; after a
failure of either stage no call touches a program object; and a link request is preceded by
the creation, compilation and successful status query of both stages. -/
def StopsAtFailedStage (a : Attempt) (vertexSource fragmentSource : Text)
    (cs : List GLCall) : Prop :=
  (a.vertexStatus = 0 →
    cs = [.glCreateShader .GL_VERTEX_SHADER,
          .glShaderSource a.vertex 1 (cstring vertexSource),
          .glCompileShader a.vertex,
          .glGetShaderiv_COMPILE_STATUS a.vertex,
          .glGetShaderInfoLog a.vertex 512] ∧
    GLCall.glCreateShader .GL_FRAGMENT_SHADER ∉ cs) ∧
  (a.vertexStatus = 0 ∨ a.fragmentStatus = 0 → ∀ c ∈ cs, c.isProgramCall = false) ∧
  (∀ program, GLCall.glLinkProgram program ∈ cs →
    a.vertexStatus ≠ 0 ∧ a.fragmentStatus ≠ 0 ∧
    ∃ rest, cs = vertexCalls a vertexSource ++ fragmentCalls a fragmentSource ++
      [.glCreateProgram, .glAttachShader a.program a.vertex,
       .glAttachShader a.program a.fragment, .glLinkProgram a.program] ++ rest)

/-- What the caller of `create_shader_program` finds in its output location.  Here `p` is the
value the location held before the call and `r` the result of the call (returned value, value
of the location, state): after a compile failure the call returns 0 and the location still
holds `p`; after a link failure it returns 0 and the location holds the handle of the program
that failed to link; and when it returns non-zero the location holds the handle of the
program whose link status was success. -/
def OutputLocation (a : Attempt) (p : GLuint) (r : GLint × GLuint × World) : Prop :=
  (a.vertexStatus = 0 ∨ a.fragmentStatus = 0 → r.1 = 0 ∧ r.2.1 = p) ∧
  (a.vertexStatus ≠ 0 → a.fragmentStatus ≠ 0 → a.linkStatus = 0 →
    r.1 = 0 ∧ r.2.1 = a.program) ∧
  (r.1 ≠ 0 → a.linkStatus ≠ 0 ∧ r.2.1 = a.program)

/-- What a failed build attempt writes to standard output, `before` being the output before
the attempt and `after` the output after it: the message of the failure, then the first 511
characters of the log the driver holds, then a line end. -/
def LogOnOutput (a : Attempt) (linkMessage : Text) (before after : Text) : Prop :=
  (a.vertexStatus = 0 →
    after = before ++ ("Vertex shader compilation failed: ".toList ++
      a.vertexLog.take 511 ++ endl)) ∧
  (a.vertexStatus ≠ 0 → a.fragmentStatus = 0 →
    after = before ++ ("Fragment shader compilation failed: ".toList ++
      a.fragmentLog.take 511 ++ endl)) ∧
  (a.vertexStatus ≠ 0 → a.fragmentStatus ≠ 0 → a.linkStatus = 0 →
    after = before ++ (linkMessage ++ a.linkLog.take 511 ++ endl))

/-- What a uniform write does when the context has the program `bound` bound and the write is
issued through a `Shader` whose program is `owner`: the value is stored for `bound` at the
location, every uniform of `owner` and every other (program, location) pair keeps its value,
and the active-program slot still holds `bound`. -/
def WritesToBound (before after : World) (owner bound : GLuint) (location : GLint)
    (value : Scalar) : Prop :=
  after.uniforms bound location = some value ∧
  (∀ l, after.uniforms owner l = before.uniforms owner l) ∧
  (∀ p l, (p, l) ≠ (bound, location) → after.uniforms p l = before.uniforms p l) ∧
  after.activeProgram = bound

/-- What it means for a run of `create_shader_program` (result `r`) and a run of the build
part of the `Shader` constructor (result `built`), both started in `w`, to be the same
pipeline: they issued the same driver calls with the same arguments in the same order,
the function returned non-zero exactly when the constructor did not throw, and on success the
handle in the output location is the constructed `ID`. -/
def SamePipeline (w : World) (built : Except Exception Shader × World)
    (r : GLint × GLuint × World) : Prop :=
  issued w r.2.2 = issued w built.2 ∧
  (r.1 ≠ 0 ↔ built.1.isOk = true) ∧
  (∀ s : Shader, built.1 = .ok s → r.2.1 = s.ID)

deriving instance DecidableEq for Except

/-! ## The four outcomes of a build attempt -/

/-- The build part of the constructor when the vertex stage's compile status is failure. -/
theorem Shader.build_of_vertex_failure (d : Driver) (v f : Text) (w : World) (a : Attempt)
    (ha : a = Attempt.of d v f w)
    (hv : a.vertexStatus = 0) :
    Shader.build d v f w =
      (.error .std_exception,
        { calls := w.calls ++ vertexCalls a v ++ [.glGetShaderInfoLog a.vertex 512]
          liveShaders := addLive a.vertex w.liveShaders
          activeProgram := w.activeProgram
          uniforms := w.uniforms
          out := w.out ++ ("Vertex shader compilation failed: ".toList ++
            cstring (fillInfoLog a.vertexLog 512) ++ endl) }) := by
  subst ha
  simp only [Attempt.of, glGetShaderiv, glGetProgramiv] at hv
  simp only [Shader.build, glGetShaderiv, glGetProgramiv, hv, if_true, if_false]
  simp only [Attempt.of, vertexCalls, fragmentCalls, linkCalls, addLive, glGetShaderiv,
    glGetShaderInfoLog, glGetProgramiv, glGetProgramInfoLog, glCreateProgram, glAttachShader,
    glLinkProgram, glDeleteShader, World.cout, World.log, glCompileShader, glShaderSource,
    glCreateShader, List.append_assoc, List.singleton_append, List.cons_append, List.nil_append]

/-- The build part of the constructor when the fragment stage's compile status is failure. -/
theorem Shader.build_of_fragment_failure (d : Driver) (v f : Text) (w : World) (a : Attempt)
    (ha : a = Attempt.of d v f w)
    (hv : a.vertexStatus ≠ 0)
    (hf : a.fragmentStatus = 0) :
    Shader.build d v f w =
      (.error .std_exception,
        { calls := w.calls ++ vertexCalls a v ++ fragmentCalls a f ++
            [.glGetShaderInfoLog a.fragment 512]
          liveShaders := addLive a.fragment (addLive a.vertex w.liveShaders)
          activeProgram := w.activeProgram
          uniforms := w.uniforms
          out := w.out ++ ("Fragment shader compilation failed: ".toList ++
            cstring (fillInfoLog a.fragmentLog 512) ++ endl) }) := by
  subst ha
  simp only [Attempt.of, glGetShaderiv, glGetProgramiv] at hv hf
  simp only [Shader.build, glGetShaderiv, glGetProgramiv, hv, hf, if_true, if_false]
  simp only [Attempt.of, vertexCalls, fragmentCalls, linkCalls, addLive, glGetShaderiv,
    glGetShaderInfoLog, glGetProgramiv, glGetProgramInfoLog, glCreateProgram, glAttachShader,
    glLinkProgram, glDeleteShader, World.cout, World.log, glCompileShader, glShaderSource,
    glCreateShader, List.append_assoc, List.singleton_append, List.cons_append, List.nil_append]

/-- The build part of the constructor when the link status is failure. -/
theorem Shader.build_of_link_failure (d : Driver) (v f : Text) (w : World) (a : Attempt)
    (ha : a = Attempt.of d v f w)
    (hv : a.vertexStatus ≠ 0)
    (hf : a.fragmentStatus ≠ 0)
    (hl : a.linkStatus = 0) :
    Shader.build d v f w =
      (.error .std_exception,
        { calls := w.calls ++ vertexCalls a v ++ fragmentCalls a f ++ linkCalls a ++
            [.glGetProgramInfoLog a.program 512]
          liveShaders := addLive a.fragment (addLive a.vertex w.liveShaders)
          activeProgram := w.activeProgram
          uniforms := w.uniforms
          out := w.out ++ ("Program linking failed: ".toList ++
            cstring (fillInfoLog a.linkLog 512) ++ endl) }) := by
  subst ha
  simp only [Attempt.of, glGetShaderiv, glGetProgramiv] at hv hf hl
  simp only [Shader.build, glGetShaderiv, glGetProgramiv, hv, hf, hl, if_true, if_false]
  simp only [Attempt.of, vertexCalls, fragmentCalls, linkCalls, addLive, glGetShaderiv,
    glGetShaderInfoLog, glGetProgramiv, glGetProgramInfoLog, glCreateProgram, glAttachShader,
    glLinkProgram, glDeleteShader, World.cout, World.log, glCompileShader, glShaderSource,
    glCreateShader, List.append_assoc, List.singleton_append, List.cons_append, List.nil_append]

/-- The build part of the constructor when all three statuses are success. -/
theorem Shader.build_of_success (d : Driver) (v f : Text) (w : World) (a : Attempt)
    (ha : a = Attempt.of d v f w)
    (hv : a.vertexStatus ≠ 0)
    (hf : a.fragmentStatus ≠ 0)
    (hl : a.linkStatus ≠ 0) :
    Shader.build d v f w =
      (.ok { ID := a.program },
        { calls := w.calls ++ vertexCalls a v ++ fragmentCalls a f ++ linkCalls a ++
            [.glDeleteShader a.vertex, .glDeleteShader a.fragment]
          liveShaders := ((addLive a.fragment (addLive a.vertex w.liveShaders)).filter
            (fun h => h != a.vertex)).filter (fun h => h != a.fragment)
          activeProgram := w.activeProgram
          uniforms := w.uniforms
          out := w.out }) := by
  subst ha
  simp only [Attempt.of, glGetShaderiv, glGetProgramiv] at hv hf hl
  simp only [Shader.build, glGetShaderiv, glGetProgramiv, hv, hf, hl, if_true, if_false]
  simp only [Attempt.of, vertexCalls, fragmentCalls, linkCalls, addLive, glGetShaderiv,
    glGetShaderInfoLog, glGetProgramiv, glGetProgramInfoLog, glCreateProgram, glAttachShader,
    glLinkProgram, glDeleteShader, World.cout, World.log, glCompileShader, glShaderSource,
    glCreateShader, List.append_assoc, List.singleton_append, List.cons_append, List.nil_append]

/-- Function `create_shader_program` when the vertex stage's compile status is failure. -/
theorem Shaders_Vertex.create_shader_program_of_vertex_failure (d : Driver) (p : GLuint) (v f : Text) (w : World) (a : Attempt)
    (ha : a = Attempt.of d v f w)
    (hv : a.vertexStatus = 0) :
    Shaders_Vertex.create_shader_program d p v f w =
      (0, p,
        { calls := w.calls ++ vertexCalls a v ++ [.glGetShaderInfoLog a.vertex 512]
          liveShaders := addLive a.vertex w.liveShaders
          activeProgram := w.activeProgram
          uniforms := w.uniforms
          out := w.out ++ ("Vertex shader compilation failed: ".toList ++
            cstring (fillInfoLog a.vertexLog 512) ++ endl) }) := by
  subst ha
  simp only [Attempt.of, glGetShaderiv, glGetProgramiv] at hv
  simp only [Shaders_Vertex.create_shader_program, glGetShaderiv, glGetProgramiv, hv, if_true, if_false]
  simp only [Attempt.of, vertexCalls, fragmentCalls, linkCalls, addLive, glGetShaderiv,
    glGetShaderInfoLog, glGetProgramiv, glGetProgramInfoLog, glCreateProgram, glAttachShader,
    glLinkProgram, glDeleteShader, World.cout, World.log, glCompileShader, glShaderSource,
    glCreateShader, List.append_assoc, List.singleton_append, List.cons_append, List.nil_append]

/-- Function `create_shader_program` when the fragment stage's compile status is failure. -/
theorem Shaders_Vertex.create_shader_program_of_fragment_failure (d : Driver) (p : GLuint) (v f : Text) (w : World) (a : Attempt)
    (ha : a = Attempt.of d v f w)
    (hv : a.vertexStatus ≠ 0)
    (hf : a.fragmentStatus = 0) :
    Shaders_Vertex.create_shader_program d p v f w =
      (0, p,
        { calls := w.calls ++ vertexCalls a v ++ fragmentCalls a f ++
            [.glGetShaderInfoLog a.fragment 512]
          liveShaders := addLive a.fragment (addLive a.vertex w.liveShaders)
          activeProgram := w.activeProgram
          uniforms := w.uniforms
          out := w.out ++ ("Fragment shader compilation failed: ".toList ++
            cstring (fillInfoLog a.fragmentLog 512) ++ endl) }) := by
  subst ha
  simp only [Attempt.of, glGetShaderiv, glGetProgramiv] at hv hf
  simp only [Shaders_Vertex.create_shader_program, glGetShaderiv, glGetProgramiv, hv, hf, if_true, if_false]
  simp only [Attempt.of, vertexCalls, fragmentCalls, linkCalls, addLive, glGetShaderiv,
    glGetShaderInfoLog, glGetProgramiv, glGetProgramInfoLog, glCreateProgram, glAttachShader,
    glLinkProgram, glDeleteShader, World.cout, World.log, glCompileShader, glShaderSource,
    glCreateShader, List.append_assoc, List.singleton_append, List.cons_append, List.nil_append]

/-- Function `create_shader_program` when the link status is failure. -/
theorem Shaders_Vertex.create_shader_program_of_link_failure (d : Driver) (p : GLuint) (v f : Text) (w : World) (a : Attempt)
    (ha : a = Attempt.of d v f w)
    (hv : a.vertexStatus ≠ 0)
    (hf : a.fragmentStatus ≠ 0)
    (hl : a.linkStatus = 0) :
    Shaders_Vertex.create_shader_program d p v f w =
      (0, a.program,
        { calls := w.calls ++ vertexCalls a v ++ fragmentCalls a f ++ linkCalls a ++
            [.glGetProgramInfoLog a.program 512]
          liveShaders := addLive a.fragment (addLive a.vertex w.liveShaders)
          activeProgram := w.activeProgram
          uniforms := w.uniforms
          out := w.out ++ ("Shader program failed to link: ".toList ++
            cstring (fillInfoLog a.linkLog 512) ++ endl) }) := by
  subst ha
  simp only [Attempt.of, glGetShaderiv, glGetProgramiv] at hv hf hl
  simp only [Shaders_Vertex.create_shader_program, glGetShaderiv, glGetProgramiv, hv, hf, hl, if_true, if_false]
  simp only [Attempt.of, vertexCalls, fragmentCalls, linkCalls, addLive, glGetShaderiv,
    glGetShaderInfoLog, glGetProgramiv, glGetProgramInfoLog, glCreateProgram, glAttachShader,
    glLinkProgram, glDeleteShader, World.cout, World.log, glCompileShader, glShaderSource,
    glCreateShader, List.append_assoc, List.singleton_append, List.cons_append, List.nil_append]

/-- Function `create_shader_program` when all three statuses are success. -/
theorem Shaders_Vertex.create_shader_program_of_success (d : Driver) (p : GLuint) (v f : Text) (w : World) (a : Attempt)
    (ha : a = Attempt.of d v f w)
    (hv : a.vertexStatus ≠ 0)
    (hf : a.fragmentStatus ≠ 0)
    (hl : a.linkStatus ≠ 0) :
    Shaders_Vertex.create_shader_program d p v f w =
      (a.linkStatus, a.program,
        { calls := w.calls ++ vertexCalls a v ++ fragmentCalls a f ++ linkCalls a ++
            [.glDeleteShader a.vertex, .glDeleteShader a.fragment]
          liveShaders := ((addLive a.fragment (addLive a.vertex w.liveShaders)).filter
            (fun h => h != a.vertex)).filter (fun h => h != a.fragment)
          activeProgram := w.activeProgram
          uniforms := w.uniforms
          out := w.out }) := by
  subst ha
  simp only [Attempt.of, glGetShaderiv, glGetProgramiv] at hv hf hl
  simp only [Shaders_Vertex.create_shader_program, glGetShaderiv, glGetProgramiv, hv, hf, hl, if_true, if_false]
  simp only [Attempt.of, vertexCalls, fragmentCalls, linkCalls, addLive, glGetShaderiv,
    glGetShaderInfoLog, glGetProgramiv, glGetProgramInfoLog, glCreateProgram, glAttachShader,
    glLinkProgram, glDeleteShader, World.cout, World.log, glCompileShader, glShaderSource,
    glCreateShader, List.append_assoc, List.singleton_append, List.cons_append, List.nil_append]

/-- The `FirstTriangle` build function is the `Shaders_Vertex` one at the global sources. -/
theorem FirstTriangle.firstTriangle_build_eq (d : Driver) (p : GLuint) (w : World) :
    FirstTriangle.create_shader_program d p w =
      Shaders_Vertex.create_shader_program d p FirstTriangle.vertexShaderSource
        FirstTriangle.fragmentShaderSource w := rfl

/-- The `Exercise_2.4` build function is the `Shaders_Vertex` one at the global sources. -/
theorem Exercise_2_4.exercise_2_4_build_eq (d : Driver) (p : GLuint) (w : World) :
    Exercise_2_4.create_shader_program d p w =
      Shaders_Vertex.create_shader_program d p Exercise_2_4.vertexShaderSource
        Exercise_2_4.fragmentShaderSource w := rfl

/-- The outcomes of `Shader.build`, by the three statuses of the attempt. -/
theorem Shader.build_fst (d : Driver) (v f : Text) (w : World) :
    (Shader.build d v f w).1 =
      if (Attempt.of d v f w).vertexStatus = 0 ∨ (Attempt.of d v f w).fragmentStatus = 0 ∨
          (Attempt.of d v f w).linkStatus = 0
      then .error .std_exception
      else .ok { ID := (Attempt.of d v f w).program } := by
  by_cases hv : (Attempt.of d v f w).vertexStatus = 0
  · rw [Shader.build_of_vertex_failure d v f w _ rfl hv, if_pos (Or.inl hv)]
  · by_cases hf : (Attempt.of d v f w).fragmentStatus = 0
    · rw [Shader.build_of_fragment_failure d v f w _ rfl hv hf, if_pos (Or.inr (Or.inl hf))]
    · by_cases hl : (Attempt.of d v f w).linkStatus = 0
      · rw [Shader.build_of_link_failure d v f w _ rfl hv hf hl, if_pos (Or.inr (Or.inr hl))]
      · rw [Shader.build_of_success d v f w _ rfl hv hf hl, if_neg]
        rintro (h | h | h)
        · exact hv h
        · exact hf h
        · exact hl h

/-! ## C1: when the constructor throws -/

/-- When the constructor throws: exactly when one of the two files cannot be opened, or one of
the three statuses of the attempt on the texts read is failure.  A failed open throws the
stream failure with no driver call made; once both files are open the constructor is its
build part on the texts read, whether or not the reads failed. -/
theorem Shader.ctor_throws_iff (d : Driver) (fs : FileSystem) (vertexPath fragmentPath : Text)
    (w : World) :
    ((Shader.ctor d fs vertexPath fragmentPath w).1.isOk = false ↔
      ((fs.openFile vertexPath).isOk = false ∨ (fs.openFile fragmentPath).isOk = false ∨
        (Attempt.of d (fs.readAll vertexPath).text (fs.readAll fragmentPath).text
          w).vertexStatus = 0 ∨
        (Attempt.of d (fs.readAll vertexPath).text (fs.readAll fragmentPath).text
          w).fragmentStatus = 0 ∨
        (Attempt.of d (fs.readAll vertexPath).text (fs.readAll fragmentPath).text
          w).linkStatus = 0)) ∧
    (((fs.openFile vertexPath).isOk = false ∨ (fs.openFile fragmentPath).isOk = false) →
      ∃ what, Shader.ctor d fs vertexPath fragmentPath w =
        (.error (.ifstream_failure what),
          w.cout ("Failed to read shader file: ".toList ++ what ++ endl))) ∧
    ((fs.openFile vertexPath).isOk = true → (fs.openFile fragmentPath).isOk = true →
      Shader.ctor d fs vertexPath fragmentPath w =
        Shader.build d (fs.readAll vertexPath).text (fs.readAll fragmentPath).text w) := by
  rcases h1 : fs.openFile vertexPath with e1 | u1
  · simp [Shader.ctor, Shader.readSources, h1, Except.isOk, Except.toBool]
  rcases h2 : fs.openFile fragmentPath with e2 | u2
  · simp [Shader.ctor, Shader.readSources, h1, h2, Except.isOk, Except.toBool]
  have hc : Shader.ctor d fs vertexPath fragmentPath w =
      Shader.build d (fs.readAll vertexPath).text (fs.readAll fragmentPath).text w := by
    simp only [Shader.ctor, Shader.readSources, h1, h2]
  rw [hc, Shader.build_fst]
  refine ⟨?_, ?_, ?_⟩
  · by_cases h : (Attempt.of d (fs.readAll vertexPath).text (fs.readAll fragmentPath).text
        w).vertexStatus = 0 ∨
        (Attempt.of d (fs.readAll vertexPath).text (fs.readAll fragmentPath).text
          w).fragmentStatus = 0 ∨
        (Attempt.of d (fs.readAll vertexPath).text (fs.readAll fragmentPath).text
          w).linkStatus = 0
    · simp [h, Except.isOk, Except.toBool]
    · simp [h, Except.isOk, Except.toBool]
  · simp [Except.isOk, Except.toBool]
  · intro _ _
    trivial

/-- C1, the code at the failing input: both files open but every read fails at once.  With a
driver that reports success three times the constructor does not throw: it returns the
`Shader` with `ID` 3 after fifteen driver calls on empty sources, and nothing is printed.
With a driver whose vertex stage fails to compile it throws the plain `std::exception` of a
compile failure after five driver calls, not the stream failure.  A file that cannot be
opened, by contrast, does make the constructor throw the stream failure with no driver call
made. -/
theorem read_failure_does_not_throw :
    (unreadableFiles.openFile "vertexShader.vs".toList).isOk = true ∧
    (unreadableFiles.readAll "vertexShader.vs".toList).failed = true ∧
    (Shader.ctor (sampleDriver 1 1 1 [] [] []) unreadableFiles "vertexShader.vs".toList
      "fragmentShader.fs".toList World.fresh).1 = .ok { ID := 3 } ∧
    (Shader.ctor (sampleDriver 1 1 1 [] [] []) unreadableFiles "vertexShader.vs".toList
      "fragmentShader.fs".toList World.fresh).2.calls.length = 15 ∧
    (Shader.ctor (sampleDriver 1 1 1 [] [] []) unreadableFiles "vertexShader.vs".toList
      "fragmentShader.fs".toList World.fresh).2.out = [] ∧
    GLCall.glShaderSource 1 1 [] ∈
      (Shader.ctor (sampleDriver 1 1 1 [] [] []) unreadableFiles "vertexShader.vs".toList
        "fragmentShader.fs".toList World.fresh).2.calls ∧
    (Shader.ctor (sampleDriver 0 1 1 [] [] []) unreadableFiles "vertexShader.vs".toList
      "fragmentShader.fs".toList World.fresh).1 = .error .std_exception ∧
    (Shader.ctor (sampleDriver 0 1 1 [] [] []) unreadableFiles "vertexShader.vs".toList
      "fragmentShader.fs".toList World.fresh).2.calls.length = 5 ∧
    (Shader.ctor (sampleDriver 1 1 1 [] [] []) noFiles "vertexShader.vs".toList
      "fragmentShader.fs".toList World.fresh).1 =
      .error (.ifstream_failure "basic_ios::clear".toList) ∧
    (Shader.ctor (sampleDriver 1 1 1 [] [] []) noFiles "vertexShader.vs".toList
      "fragmentShader.fs".toList World.fresh).2.calls = [] := by
  decide

/-! ## C2: a failed stage stops the attempt -/

/-- The calls issued between two states, when the later history extends the earlier one. -/
theorem issued_of_calls_eq (w w1 : World) (cs : List GLCall) (h : w1.calls = w.calls ++ cs) :
    issued w w1 = cs := by
  simp [issued, h]

/-- The calls the build part of the constructor issues. -/
theorem Shader.build_issued (d : Driver) (v f : Text) (w : World) :
    issued w (Shader.build d v f w).2 = attemptCalls (Attempt.of d v f w) v f := by
  unfold attemptCalls
  split_ifs with hv hf hl
  · rw [Shader.build_of_vertex_failure d v f w _ rfl hv]
    exact issued_of_calls_eq _ _ _ (by simp only [List.append_assoc])
  · rw [Shader.build_of_fragment_failure d v f w _ rfl hv hf]
    exact issued_of_calls_eq _ _ _ (by simp only [List.append_assoc])
  · rw [Shader.build_of_link_failure d v f w _ rfl hv hf hl]
    exact issued_of_calls_eq _ _ _ (by simp only [List.append_assoc])
  · rw [Shader.build_of_success d v f w _ rfl hv hf hl]
    exact issued_of_calls_eq _ _ _ (by simp only [List.append_assoc])

/-- The calls `create_shader_program` issues. -/
theorem Shaders_Vertex.create_shader_program_issued (d : Driver) (p : GLuint) (v f : Text)
    (w : World) :
    issued w (Shaders_Vertex.create_shader_program d p v f w).2.2 =
      attemptCalls (Attempt.of d v f w) v f := by
  unfold attemptCalls
  split_ifs with hv hf hl
  · rw [Shaders_Vertex.create_shader_program_of_vertex_failure d p v f w _ rfl hv]
    exact issued_of_calls_eq _ _ _ (by simp only [List.append_assoc])
  · rw [Shaders_Vertex.create_shader_program_of_fragment_failure d p v f w _ rfl hv hf]
    exact issued_of_calls_eq _ _ _ (by simp only [List.append_assoc])
  · rw [Shaders_Vertex.create_shader_program_of_link_failure d p v f w _ rfl hv hf hl]
    exact issued_of_calls_eq _ _ _ (by simp only [List.append_assoc])
  · rw [Shaders_Vertex.create_shader_program_of_success d p v f w _ rfl hv hf hl]
    exact issued_of_calls_eq _ _ _ (by simp only [List.append_assoc])

/-- The calls of an attempt stop at a failed stage. -/
theorem attemptCalls_stops (a : Attempt) (v f : Text) :
    StopsAtFailedStage a v f (attemptCalls a v f) := by
  refine ⟨?_, ?_, ?_⟩
  · intro hv
    simp [attemptCalls, hv, vertexCalls]
  · intro h c hc
    by_cases hv : a.vertexStatus = 0
    · simp only [attemptCalls, hv, if_true, vertexCalls] at hc
      simp at hc
      rcases hc with rfl | rfl | rfl | rfl | rfl <;> rfl
    · have hf : a.fragmentStatus = 0 := h.resolve_left hv
      simp only [attemptCalls, hv, hf, if_true, if_false, vertexCalls, fragmentCalls] at hc
      simp at hc
      rcases hc with rfl | rfl | rfl | rfl | rfl | rfl | rfl | rfl | rfl <;> rfl
  · intro program hp
    by_cases hv : a.vertexStatus = 0
    · simp [attemptCalls, hv, vertexCalls] at hp
    by_cases hf : a.fragmentStatus = 0
    · simp [attemptCalls, hv, hf, vertexCalls, fragmentCalls] at hp
    refine ⟨hv, hf, ?_⟩
    by_cases hl : a.linkStatus = 0
    · exact ⟨[.glGetProgramiv_LINK_STATUS a.program, .glGetProgramInfoLog a.program 512], by
        simp [attemptCalls, hv, hf, hl, linkCalls]⟩
    · exact ⟨[.glGetProgramiv_LINK_STATUS a.program, .glDeleteShader a.vertex,
        .glDeleteShader a.fragment], by simp [attemptCalls, hv, hf, hl, linkCalls]⟩

/-- C2: in one build attempt, of the `Shader` constructor and of `create_shader_program`
alike, a vertex compile failure means that no fragment stage is created, given source or
compiled and no program object is created, attached to or linked; a fragment compile failure
means that no program object is created, attached to or linked; and linking is requested only
after both stages reported a successful compile. -/
theorem failed_stage_stops_build (d : Driver) (fs : FileSystem) (vertexPath fragmentPath : Text)
    (p : GLuint) (v f : Text) (w : World)
    (hread : Shader.readSources fs vertexPath fragmentPath = .ok (v, f)) :
    StopsAtFailedStage (Attempt.of d v f w) v f
      (issued w (Shader.ctor d fs vertexPath fragmentPath w).2) ∧
    StopsAtFailedStage (Attempt.of d v f w) v f
      (issued w (Shaders_Vertex.create_shader_program d p v f w).2.2) := by
  have hc : Shader.ctor d fs vertexPath fragmentPath w = Shader.build d v f w := by
    simp only [Shader.ctor, hread]
  rw [hc, Shader.build_issued, Shaders_Vertex.create_shader_program_issued]
  exact ⟨attemptCalls_stops _ v f, attemptCalls_stops _ v f⟩

/-- Witness for C2: the sample files can be read, and the theorem applies to them with a
driver whose vertex stage fails to compile. -/
theorem failed_stage_stops_build_witness :
    Shader.readSources sampleFiles "vertexShader.vs".toList "fragmentShader.fs".toList =
        .ok ("void main() \x7b\x7d".toList, "void main() \x7b\x7d".toList) ∧
    (StopsAtFailedStage
      (Attempt.of (sampleDriver 0 1 1 [] [] []) "void main() \x7b\x7d".toList
        "void main() \x7b\x7d".toList World.fresh)
      "void main() \x7b\x7d".toList "void main() \x7b\x7d".toList
      (issued World.fresh (Shader.ctor (sampleDriver 0 1 1 [] [] []) sampleFiles
        "vertexShader.vs".toList "fragmentShader.fs".toList World.fresh).2) ∧
    StopsAtFailedStage
      (Attempt.of (sampleDriver 0 1 1 [] [] []) "void main() \x7b\x7d".toList
        "void main() \x7b\x7d".toList World.fresh)
      "void main() \x7b\x7d".toList "void main() \x7b\x7d".toList
      (issued World.fresh (Shaders_Vertex.create_shader_program (sampleDriver 0 1 1 [] [] []) 0
        "void main() \x7b\x7d".toList "void main() \x7b\x7d".toList World.fresh).2.2)) :=
  ⟨rfl, failed_stage_stops_build (sampleDriver 0 1 1 [] [] []) sampleFiles
    "vertexShader.vs".toList "fragmentShader.fs".toList 0 "void main() \x7b\x7d".toList
    "void main() \x7b\x7d".toList World.fresh rfl⟩

/-! ## C3: the output location of `create_shader_program` -/

/-- The returned value and the output location of `create_shader_program`, by the three
statuses of the attempt. -/
theorem Shaders_Vertex.create_shader_program_value (d : Driver) (p : GLuint) (v f : Text)
    (w : World) :
    ((Shaders_Vertex.create_shader_program d p v f w).1,
      (Shaders_Vertex.create_shader_program d p v f w).2.1) =
      if (Attempt.of d v f w).vertexStatus = 0 ∨ (Attempt.of d v f w).fragmentStatus = 0 then
        (0, p)
      else if (Attempt.of d v f w).linkStatus = 0 then (0, (Attempt.of d v f w).program)
      else ((Attempt.of d v f w).linkStatus, (Attempt.of d v f w).program) := by
  by_cases hv : (Attempt.of d v f w).vertexStatus = 0
  · rw [Shaders_Vertex.create_shader_program_of_vertex_failure d p v f w _ rfl hv,
      if_pos (Or.inl hv)]
  · by_cases hf : (Attempt.of d v f w).fragmentStatus = 0
    · rw [Shaders_Vertex.create_shader_program_of_fragment_failure d p v f w _ rfl hv hf,
        if_pos (Or.inr hf)]
    · have hvf : ¬((Attempt.of d v f w).vertexStatus = 0 ∨
          (Attempt.of d v f w).fragmentStatus = 0) := fun h => h.elim hv hf
      by_cases hl : (Attempt.of d v f w).linkStatus = 0
      · rw [Shaders_Vertex.create_shader_program_of_link_failure d p v f w _ rfl hv hf hl,
          if_neg hvf, if_pos hl]
      · rw [Shaders_Vertex.create_shader_program_of_success d p v f w _ rfl hv hf hl,
          if_neg hvf, if_neg hl]

/-- The output location after `create_shader_program`, for any sources. -/
theorem Shaders_Vertex.create_shader_program_output (d : Driver) (p : GLuint) (v f : Text)
    (w : World) :
    OutputLocation (Attempt.of d v f w) p (Shaders_Vertex.create_shader_program d p v f w) := by
  have h := Shaders_Vertex.create_shader_program_value d p v f w
  rw [Prod.mk.injEq] at h
  refine ⟨?_, ?_, ?_⟩
  · intro hvf
    rw [if_pos hvf] at h
    exact h
  · intro hv hf hl
    rw [if_neg (fun h => h.elim hv hf), if_pos hl] at h
    exact h
  · intro hr
    by_cases hvf : (Attempt.of d v f w).vertexStatus = 0 ∨
        (Attempt.of d v f w).fragmentStatus = 0
    · rw [if_pos hvf] at h
      exact absurd h.1 hr
    · by_cases hl : (Attempt.of d v f w).linkStatus = 0
      · rw [if_neg hvf, if_pos hl] at h
        exact absurd h.1 hr
      · rw [if_neg hvf, if_neg hl] at h
        exact ⟨hl, h.2⟩

/-- Counterexample to C3: with a driver that compiles both stages and reports a failed link,
`create_shader_program` of `FirstTriangle`, called with the output location holding 0,
returns 0 and leaves in the location the handle 3 of the program that failed to link. -/
theorem output_location_after_link_failure :
    (FirstTriangle.create_shader_program (sampleDriver 1 1 0 [] [] []) 0 World.fresh).1 = 0 ∧
    (FirstTriangle.create_shader_program (sampleDriver 1 1 0 [] [] []) 0 World.fresh).2.1 = 3 ∧
    (Attempt.of (sampleDriver 1 1 0 [] [] []) FirstTriangle.vertexShaderSource
      FirstTriangle.fragmentShaderSource World.fresh).program = 3 ∧
    (Attempt.of (sampleDriver 1 1 0 [] [] []) FirstTriangle.vertexShaderSource
      FirstTriangle.fragmentShaderSource World.fresh).linkStatus = 0 := by
  decide

/-- C3 as amended: for every behaviour of the driver, in `FirstTriangle` and in
`Shaders_Vertex` alike, when `create_shader_program` returns 0 after a vertex or fragment
compile failure the caller's output location holds the value it had before the call; when it
returns 0 after a link failure the location holds the handle `glCreateProgram` returned for
the program that failed to link; and when it returns non-zero the location holds the handle
of the program whose link status was success. -/
theorem create_shader_program_output_location (d : Driver) (p : GLuint) (v f : Text)
    (w : World) :
    OutputLocation
      (Attempt.of d FirstTriangle.vertexShaderSource FirstTriangle.fragmentShaderSource w) p
      (FirstTriangle.create_shader_program d p w) ∧
    OutputLocation (Attempt.of d v f w) p (Shaders_Vertex.create_shader_program d p v f w) :=
  ⟨Shaders_Vertex.create_shader_program_output d p _ _ w,
    Shaders_Vertex.create_shader_program_output d p v f w⟩

/-! ## C4 and C5: which stage handles are released -/

/-- After a successful link neither stage handle of the attempt is live; after a failed link
every stage handle the attempt was given (a non-zero one) is still live.  This holds for the
build part of the constructor and for `create_shader_program` alike. -/
theorem live_stages_after_link (d : Driver) (p : GLuint) (v f : Text) (w : World)
    (hv : (Attempt.of d v f w).vertexStatus ≠ 0)
    (hf : (Attempt.of d v f w).fragmentStatus ≠ 0) :
    ((Attempt.of d v f w).linkStatus ≠ 0 →
      (Attempt.of d v f w).vertex ∉ (Shader.build d v f w).2.liveShaders ∧
      (Attempt.of d v f w).fragment ∉ (Shader.build d v f w).2.liveShaders ∧
      (Attempt.of d v f w).vertex ∉
        (Shaders_Vertex.create_shader_program d p v f w).2.2.liveShaders ∧
      (Attempt.of d v f w).fragment ∉
        (Shaders_Vertex.create_shader_program d p v f w).2.2.liveShaders) ∧
    ((Attempt.of d v f w).linkStatus = 0 →
      ((Attempt.of d v f w).vertex ≠ 0 →
        (Attempt.of d v f w).vertex ∈ (Shader.build d v f w).2.liveShaders ∧
        (Attempt.of d v f w).vertex ∈
          (Shaders_Vertex.create_shader_program d p v f w).2.2.liveShaders) ∧
      ((Attempt.of d v f w).fragment ≠ 0 →
        (Attempt.of d v f w).fragment ∈ (Shader.build d v f w).2.liveShaders ∧
        (Attempt.of d v f w).fragment ∈
          (Shaders_Vertex.create_shader_program d p v f w).2.2.liveShaders)) := by
  constructor
  · intro hl
    rw [Shader.build_of_success d v f w _ rfl hv hf hl,
      Shaders_Vertex.create_shader_program_of_success d p v f w _ rfl hv hf hl]
    simp
  · intro hl
    rw [Shader.build_of_link_failure d v f w _ rfl hv hf hl,
      Shaders_Vertex.create_shader_program_of_link_failure d p v f w _ rfl hv hf hl]
    constructor
    · intro h0
      simp only [addLive, h0, if_false]
      split_ifs <;> simp
    · intro h0
      simp [addLive, h0]

/-- C4, the code at the failing input: with a driver that compiles both stages (handles 1 and
2) and reports a failed link, the `Shader` constructor throws and `create_shader_program`
returns 0 with both stage handles still in the live set, no `glDeleteShader` having been
issued; with the same driver reporting a successful link both handles are released. -/
theorem link_failure_keeps_stages_live :
    (Shader.ctor (sampleDriver 1 1 0 [] [] []) sampleFiles "vertexShader.vs".toList
      "fragmentShader.fs".toList World.fresh).1 = .error .std_exception ∧
    (Shader.ctor (sampleDriver 1 1 0 [] [] []) sampleFiles "vertexShader.vs".toList
      "fragmentShader.fs".toList World.fresh).2.liveShaders = [2, 1] ∧
    GLCall.glDeleteShader 1 ∉ (Shader.ctor (sampleDriver 1 1 0 [] [] []) sampleFiles
      "vertexShader.vs".toList "fragmentShader.fs".toList World.fresh).2.calls ∧
    GLCall.glDeleteShader 2 ∉ (Shader.ctor (sampleDriver 1 1 0 [] [] []) sampleFiles
      "vertexShader.vs".toList "fragmentShader.fs".toList World.fresh).2.calls ∧
    (FirstTriangle.create_shader_program (sampleDriver 1 1 0 [] [] []) 0 World.fresh).1 = 0 ∧
    (FirstTriangle.create_shader_program (sampleDriver 1 1 0 [] [] []) 0
      World.fresh).2.2.liveShaders = [2, 1] ∧
    (Shader.ctor (sampleDriver 1 1 1 [] [] []) sampleFiles "vertexShader.vs".toList
      "fragmentShader.fs".toList World.fresh).2.liveShaders = [] ∧
    (FirstTriangle.create_shader_program (sampleDriver 1 1 1 [] [] []) 0
      World.fresh).2.2.liveShaders = [] := by
  decide

/-- After a compile failure every stage handle the attempt was given (a non-zero one) is
still live: the failed vertex stage, or the compiled vertex stage and the failed fragment
stage. -/
theorem live_stages_after_compile_failure (d : Driver) (p : GLuint) (v f : Text) (w : World) :
    ((Attempt.of d v f w).vertexStatus = 0 → (Attempt.of d v f w).vertex ≠ 0 →
      (Attempt.of d v f w).vertex ∈ (Shader.build d v f w).2.liveShaders ∧
      (Attempt.of d v f w).vertex ∈
        (Shaders_Vertex.create_shader_program d p v f w).2.2.liveShaders) ∧
    ((Attempt.of d v f w).vertexStatus ≠ 0 → (Attempt.of d v f w).fragmentStatus = 0 →
      ((Attempt.of d v f w).vertex ≠ 0 →
        (Attempt.of d v f w).vertex ∈ (Shader.build d v f w).2.liveShaders ∧
        (Attempt.of d v f w).vertex ∈
          (Shaders_Vertex.create_shader_program d p v f w).2.2.liveShaders) ∧
      ((Attempt.of d v f w).fragment ≠ 0 →
        (Attempt.of d v f w).fragment ∈ (Shader.build d v f w).2.liveShaders ∧
        (Attempt.of d v f w).fragment ∈
          (Shaders_Vertex.create_shader_program d p v f w).2.2.liveShaders)) := by
  constructor
  · intro hv h0
    rw [Shader.build_of_vertex_failure d v f w _ rfl hv,
      Shaders_Vertex.create_shader_program_of_vertex_failure d p v f w _ rfl hv]
    simp [addLive, h0]
  · intro hv hf
    rw [Shader.build_of_fragment_failure d v f w _ rfl hv hf,
      Shaders_Vertex.create_shader_program_of_fragment_failure d p v f w _ rfl hv hf]
    constructor
    · intro h0
      simp only [addLive, h0, if_false]
      split_ifs <;> simp
    · intro h0
      simp [addLive, h0]

/-- C5, the code at the failing inputs: with a driver whose vertex stage (handle 1) fails to
compile, the `Shader` constructor throws and `create_shader_program` of `Exercise_2.4`
returns 0 with the handle 1 still in the live set; with a driver whose fragment stage
(handle 2) fails to compile, both end with the handles 1 and 2 still in the live set.  No
`glDeleteShader` is issued in either case. -/
theorem compile_failure_keeps_stages_live :
    (Shader.ctor (sampleDriver 0 1 1 [] [] []) sampleFiles "vertexShader.vs".toList
      "fragmentShader.fs".toList World.fresh).1 = .error .std_exception ∧
    (Shader.ctor (sampleDriver 0 1 1 [] [] []) sampleFiles "vertexShader.vs".toList
      "fragmentShader.fs".toList World.fresh).2.liveShaders = [1] ∧
    (Exercise_2_4.create_shader_program (sampleDriver 0 1 1 [] [] []) 0 World.fresh).1 = 0 ∧
    (Exercise_2_4.create_shader_program (sampleDriver 0 1 1 [] [] []) 0
      World.fresh).2.2.liveShaders = [1] ∧
    (Shader.ctor (sampleDriver 1 0 1 [] [] []) sampleFiles "vertexShader.vs".toList
      "fragmentShader.fs".toList World.fresh).1 = .error .std_exception ∧
    (Shader.ctor (sampleDriver 1 0 1 [] [] []) sampleFiles "vertexShader.vs".toList
      "fragmentShader.fs".toList World.fresh).2.liveShaders = [2, 1] ∧
    (Exercise_2_4.create_shader_program (sampleDriver 1 0 1 [] [] []) 0 World.fresh).1 = 0 ∧
    (Exercise_2_4.create_shader_program (sampleDriver 1 0 1 [] [] []) 0
      World.fresh).2.2.liveShaders = [2, 1] ∧
    GLCall.glDeleteShader 1 ∉ (Shader.ctor (sampleDriver 0 1 1 [] [] []) sampleFiles
      "vertexShader.vs".toList "fragmentShader.fs".toList World.fresh).2.calls ∧
    GLCall.glDeleteShader 1 ∉ (Exercise_2_4.create_shader_program (sampleDriver 1 0 1 [] [] [])
      0 World.fresh).2.2.calls ∧
    GLCall.glDeleteShader 2 ∉ (Exercise_2_4.create_shader_program (sampleDriver 1 0 1 [] [] [])
      0 World.fresh).2.2.calls := by
  decide

/-! ## C6: the value the constructor throws -/

/-- Counterexample to C6: a vertex compile failure (log `v`), a fragment compile failure (log
`f`) and a link failure (log `l`) make the constructor throw one and the same value, the
plain `std::exception`, which holds neither a stage kind nor a log. -/
theorem build_failures_indistinguishable :
    (Shader.ctor (sampleDriver 0 1 1 "v".toList [] []) sampleFiles "vertexShader.vs".toList
      "fragmentShader.fs".toList World.fresh).1 = .error .std_exception ∧
    (Shader.ctor (sampleDriver 0 1 1 "v".toList [] []) sampleFiles "vertexShader.vs".toList
      "fragmentShader.fs".toList World.fresh).1 =
      (Shader.ctor (sampleDriver 1 0 1 [] "f".toList []) sampleFiles "vertexShader.vs".toList
        "fragmentShader.fs".toList World.fresh).1 ∧
    (Shader.ctor (sampleDriver 1 0 1 [] "f".toList []) sampleFiles "vertexShader.vs".toList
      "fragmentShader.fs".toList World.fresh).1 =
      (Shader.ctor (sampleDriver 1 1 0 [] [] "l".toList) sampleFiles "vertexShader.vs".toList
        "fragmentShader.fs".toList World.fresh).1 := by
  decide

/-- C6 as amended: a vertex compile failure, a fragment compile failure and a link failure
all make the `Shader` constructor throw the same value, a default-constructed
`std::exception`, which carries neither the stage kind nor the driver's log; what tells the
failures apart is the message written to standard output before the throw, which names the
failure and is followed by the text of the 512-character log buffer. -/
theorem build_failure_throws_std_exception (d : Driver) (fs : FileSystem)
    (vertexPath fragmentPath : Text) (v f : Text) (w : World)
    (hread : Shader.readSources fs vertexPath fragmentPath = .ok (v, f)) :
    (((Attempt.of d v f w).vertexStatus = 0 ∨ (Attempt.of d v f w).fragmentStatus = 0 ∨
        (Attempt.of d v f w).linkStatus = 0) →
      (Shader.ctor d fs vertexPath fragmentPath w).1 = .error .std_exception) ∧
    ((Attempt.of d v f w).vertexStatus = 0 →
      (Shader.ctor d fs vertexPath fragmentPath w).2.out =
        w.out ++ ("Vertex shader compilation failed: ".toList ++
          cstring (fillInfoLog (Attempt.of d v f w).vertexLog 512) ++ endl)) ∧
    ((Attempt.of d v f w).vertexStatus ≠ 0 → (Attempt.of d v f w).fragmentStatus = 0 →
      (Shader.ctor d fs vertexPath fragmentPath w).2.out =
        w.out ++ ("Fragment shader compilation failed: ".toList ++
          cstring (fillInfoLog (Attempt.of d v f w).fragmentLog 512) ++ endl)) ∧
    ((Attempt.of d v f w).vertexStatus ≠ 0 → (Attempt.of d v f w).fragmentStatus ≠ 0 →
      (Attempt.of d v f w).linkStatus = 0 →
      (Shader.ctor d fs vertexPath fragmentPath w).2.out =
        w.out ++ ("Program linking failed: ".toList ++
          cstring (fillInfoLog (Attempt.of d v f w).linkLog 512) ++ endl)) := by
  have hc : Shader.ctor d fs vertexPath fragmentPath w = Shader.build d v f w := by
    simp only [Shader.ctor, hread]
  rw [hc]
  refine ⟨?_, ?_, ?_, ?_⟩
  · intro h
    rw [Shader.build_fst, if_pos h]
  · intro hv
    rw [Shader.build_of_vertex_failure d v f w _ rfl hv]
  · intro hv hf
    rw [Shader.build_of_fragment_failure d v f w _ rfl hv hf]
  · intro hv hf hl
    rw [Shader.build_of_link_failure d v f w _ rfl hv hf hl]

/-- Witness for C6: the sample files can be read, and the theorem applies to them with a
driver whose link fails. -/
theorem build_failure_throws_std_exception_witness :
    Shader.readSources sampleFiles "vertexShader.vs".toList "fragmentShader.fs".toList =
        .ok ("void main() \x7b\x7d".toList, "void main() \x7b\x7d".toList) ∧
    (Shader.ctor (sampleDriver 1 1 0 [] [] "l".toList) sampleFiles "vertexShader.vs".toList
      "fragmentShader.fs".toList World.fresh).1 = .error .std_exception ∧
    (Shader.ctor (sampleDriver 1 1 0 [] [] "l".toList) sampleFiles "vertexShader.vs".toList
      "fragmentShader.fs".toList World.fresh).2.out = "Program linking failed: l\n".toList :=
  ⟨rfl,
    (build_failure_throws_std_exception (sampleDriver 1 1 0 [] [] "l".toList) sampleFiles
      "vertexShader.vs".toList "fragmentShader.fs".toList "void main() \x7b\x7d".toList
      "void main() \x7b\x7d".toList World.fresh rfl).1 (Or.inr (Or.inr rfl)),
    (build_failure_throws_std_exception (sampleDriver 1 1 0 [] [] "l".toList) sampleFiles
      "vertexShader.vs".toList "fragmentShader.fs".toList "void main() \x7b\x7d".toList
      "void main() \x7b\x7d".toList World.fresh rfl).2.2.2 (by decide) (by decide) rfl⟩

/-! ## C7: how much of a log reaches standard output -/

/-- Printing a NUL-terminated buffer prints the characters before the terminator. -/
theorem cstring_append_NUL (t : Text) (h : NUL ∉ t) : cstring (t ++ [NUL]) = t := by
  induction t with
  | nil => simp [cstring]
  | cons c t ih =>
    have hc : c ≠ NUL := fun e => h (by simp [e])
    have ht : NUL ∉ t := fun e => h (List.mem_cons_of_mem _ e)
    have ih1 := ih ht
    have hb : (c != NUL) = true := by simp [hc]
    simp only [cstring] at ih1 ⊢
    rw [List.cons_append,
      @List.takeWhile_cons_of_pos _ (fun x => x != NUL) c (t ++ [NUL]) hb, ih1]

/-- The text printed from an info-log buffer of `bufSize` characters. -/
theorem cstring_fillInfoLog (log : Text) (bufSize : Nat) (h : NUL ∉ log) :
    cstring (fillInfoLog log bufSize) = log.take (bufSize - 1) :=
  cstring_append_NUL _ (fun e => h (List.mem_of_mem_take e))

/-- What the build part of the constructor prints on a failure, for a driver whose logs are
C strings. -/
theorem Shader.build_logOnOutput (d : Driver) (v f : Text) (w : World)
    (hs : ∀ w h, NUL ∉ d.shaderInfoLog w h) (hp : ∀ w h, NUL ∉ d.programInfoLog w h) :
    LogOnOutput (Attempt.of d v f w) "Program linking failed: ".toList w.out
      (Shader.build d v f w).2.out := by
  have h1 : NUL ∉ (Attempt.of d v f w).vertexLog := hs _ _
  have h2 : NUL ∉ (Attempt.of d v f w).fragmentLog := hs _ _
  have h3 : NUL ∉ (Attempt.of d v f w).linkLog := hp _ _
  refine ⟨?_, ?_, ?_⟩
  · intro hv
    rw [Shader.build_of_vertex_failure d v f w _ rfl hv, cstring_fillInfoLog _ _ h1]
  · intro hv hf
    rw [Shader.build_of_fragment_failure d v f w _ rfl hv hf,
      cstring_fillInfoLog _ _ h2]
  · intro hv hf hl
    rw [Shader.build_of_link_failure d v f w _ rfl hv hf hl,
      cstring_fillInfoLog _ _ h3]

/-- What `create_shader_program` prints on a failure, for a driver whose logs are C
strings. -/
theorem Shaders_Vertex.create_shader_program_logOnOutput (d : Driver) (p : GLuint)
    (v f : Text) (w : World)
    (hs : ∀ w h, NUL ∉ d.shaderInfoLog w h) (hp : ∀ w h, NUL ∉ d.programInfoLog w h) :
    LogOnOutput (Attempt.of d v f w) "Shader program failed to link: ".toList w.out
      (Shaders_Vertex.create_shader_program d p v f w).2.2.out := by
  have h1 : NUL ∉ (Attempt.of d v f w).vertexLog := hs _ _
  have h2 : NUL ∉ (Attempt.of d v f w).fragmentLog := hs _ _
  have h3 : NUL ∉ (Attempt.of d v f w).linkLog := hp _ _
  refine ⟨?_, ?_, ?_⟩
  · intro hv
    rw [Shaders_Vertex.create_shader_program_of_vertex_failure d p v f w _ rfl hv,
      cstring_fillInfoLog _ _ h1]
  · intro hv hf
    rw [Shaders_Vertex.create_shader_program_of_fragment_failure d p v f w _ rfl hv hf,
      cstring_fillInfoLog _ _ h2]
  · intro hv hf hl
    rw [Shaders_Vertex.create_shader_program_of_link_failure d p v f w _ rfl hv hf hl,
      cstring_fillInfoLog _ _ h3]

/-- Counterexample to C7: the driver holds a vertex log of 512 characters `x`; the
constructor writes the message followed by 511 of them and a line end, which is not the
message followed by the log and a line end. -/
theorem long_log_is_cut :
    (Shader.ctor (sampleDriver 0 1 1 (List.replicate 512 'x') [] []) sampleFiles
      "vertexShader.vs".toList "fragmentShader.fs".toList World.fresh).2.out =
      "Vertex shader compilation failed: ".toList ++ List.replicate 511 'x' ++ endl ∧
    (Shader.ctor (sampleDriver 0 1 1 (List.replicate 512 'x') [] []) sampleFiles
      "vertexShader.vs".toList "fragmentShader.fs".toList World.fresh).2.out ≠
      "Vertex shader compilation failed: ".toList ++ List.replicate 512 'x' ++ endl := by
  have hc : Shader.ctor (sampleDriver 0 1 1 (List.replicate 512 'x') [] []) sampleFiles
      "vertexShader.vs".toList "fragmentShader.fs".toList World.fresh =
      Shader.build (sampleDriver 0 1 1 (List.replicate 512 'x') [] [])
        "void main() \x7b\x7d".toList "void main() \x7b\x7d".toList World.fresh := rfl
  have hlog : (Attempt.of (sampleDriver 0 1 1 (List.replicate 512 'x') [] [])
      "void main() \x7b\x7d".toList "void main() \x7b\x7d".toList World.fresh).vertexLog =
      List.replicate 512 'x' := rfl
  have hnul : NUL ∉ List.replicate 512 'x' := by
    intro h
    have h1 := List.eq_of_mem_replicate h
    revert h1
    decide
  have hout : (Shader.ctor (sampleDriver 0 1 1 (List.replicate 512 'x') [] []) sampleFiles
      "vertexShader.vs".toList "fragmentShader.fs".toList World.fresh).2.out =
      "Vertex shader compilation failed: ".toList ++ List.replicate 511 'x' ++ endl := by
    rw [hc, Shader.build_of_vertex_failure (sampleDriver 0 1 1 (List.replicate 512 'x') [] [])
        "void main() \x7b\x7d".toList "void main() \x7b\x7d".toList World.fresh _ rfl rfl,
      hlog, cstring_fillInfoLog _ _ hnul, List.take_replicate]
    rfl
  refine ⟨hout, ?_⟩
  rw [hout]
  intro h
  have hlen := congrArg List.length h
  simp only [List.length_append, List.length_replicate] at hlen
  omega

/-- C7 as amended: for a driver whose logs are C strings (no NUL inside), the text a failed
build attempt writes to standard output is the failure-specific message followed by the
first 511 characters of the log the driver holds and a line end, in the `Shader` constructor
and in `create_shader_program` alike; a log of at most 511 characters is therefore surfaced
whole and unaltered, a longer one is cut to the 512-character buffer. -/
theorem log_surfaced_up_to_buffer (d : Driver) (p : GLuint) (v f : Text) (w : World)
    (hs : ∀ w h, NUL ∉ d.shaderInfoLog w h) (hp : ∀ w h, NUL ∉ d.programInfoLog w h) :
    LogOnOutput (Attempt.of d v f w) "Program linking failed: ".toList w.out
      (Shader.build d v f w).2.out ∧
    LogOnOutput
      (Attempt.of d FirstTriangle.vertexShaderSource FirstTriangle.fragmentShaderSource w)
      "Shader program failed to link: ".toList w.out
      (FirstTriangle.create_shader_program d p w).2.2.out ∧
    (∀ log : Text, log.length ≤ 511 → log.take 511 = log) :=
  ⟨Shader.build_logOnOutput d v f w hs hp,
    Shaders_Vertex.create_shader_program_logOnOutput d p _ _ w hs hp,
    fun _ h => List.take_of_length_le h⟩

/-- Witness for C7: the logs of the sample driver hold no NUL, and with a vertex log of 17
characters the whole log reaches standard output. -/
theorem log_surfaced_up_to_buffer_witness :
    (∀ (w : World) (h : GLuint),
      NUL ∉ (sampleDriver 0 1 1 "0:1: syntax error".toList [] []).shaderInfoLog w h) ∧
    (∀ (w : World) (h : GLuint),
      NUL ∉ (sampleDriver 0 1 1 "0:1: syntax error".toList [] []).programInfoLog w h) ∧
    (Shader.build (sampleDriver 0 1 1 "0:1: syntax error".toList [] []) [] []
      World.fresh).2.out =
      "Vertex shader compilation failed: 0:1: syntax error\n".toList :=
  have hs : ∀ (w : World) (h : GLuint),
      NUL ∉ (sampleDriver 0 1 1 "0:1: syntax error".toList [] []).shaderInfoLog w h := by
    intro w h
    by_cases h1 : h = 1
    · simp only [sampleDriver, h1, if_true]
      decide
    · simp only [sampleDriver, h1, if_false]
      decide
  have hp : ∀ (w : World) (h : GLuint),
      NUL ∉ (sampleDriver 0 1 1 "0:1: syntax error".toList [] []).programInfoLog w h := by
    intro w h
    simp only [sampleDriver]
    decide
  ⟨hs, hp,
    (log_surfaced_up_to_buffer (sampleDriver 0 1 1 "0:1: syntax error".toList [] []) 0 [] []
      World.fresh hs hp).1.1 rfl⟩

/-! ## C8 and C9: uniform writes -/

/-- The round trip of `setInt`, at the location the name resolves to. -/
theorem Shader.setInt_stores (d : Driver) (s : Shader) (name : Text) (v : GLint) (w : World)
    (hactive : w.activeProgram = s.ID)
    (hfound : (glGetUniformLocation d s.ID name w).1 ≠ notFound) :
    (s.setInt d name v w).uniforms s.ID (glGetUniformLocation d s.ID name w).1 =
      some (.int v) ∧
    ∀ p l, (p, l) ≠ (s.ID, (glGetUniformLocation d s.ID name w).1) →
      (s.setInt d name v w).uniforms p l = w.uniforms p l := by
  simp only [glGetUniformLocation] at hfound
  simp only [Shader.setInt, glGetUniformLocation, glUniform1i, if_neg hfound, World.store,
    World.log, hactive]
  constructor
  · simp
  · intro p l hpl
    have : ¬(p = s.ID ∧ l = ((d.activeUniforms w s.ID).lookup (cstring name)).getD notFound) :=
      fun h => hpl (by rw [h.1, h.2])
    simp [this]

/-- The round trip of `setFloat`, at the location the name resolves to. -/
theorem Shader.setFloat_stores (d : Driver) (s : Shader) (name : Text) (x : GLfloat)
    (w : World) (hactive : w.activeProgram = s.ID)
    (hfound : (glGetUniformLocation d s.ID name w).1 ≠ notFound) :
    (s.setFloat d name x w).uniforms s.ID (glGetUniformLocation d s.ID name w).1 =
      some (.float x) ∧
    ∀ p l, (p, l) ≠ (s.ID, (glGetUniformLocation d s.ID name w).1) →
      (s.setFloat d name x w).uniforms p l = w.uniforms p l := by
  simp only [glGetUniformLocation] at hfound
  simp only [Shader.setFloat, glGetUniformLocation, glUniform1f, if_neg hfound, World.store,
    World.log, hactive]
  constructor
  · simp
  · intro p l hpl
    have : ¬(p = s.ID ∧ l = ((d.activeUniforms w s.ID).lookup (cstring name)).getD notFound) :=
      fun h => hpl (by rw [h.1, h.2])
    simp [this]

/-- C8: over the driver model whose state maps (program, location) to a scalar, for a
`Shader` that is the currently active program and a name that resolves to a location other
than the sentinel: after `setInt(name, v)` the value stored for that uniform is `v`, after
`setFloat(name, x)` it is `x`, `setBool(name, b)` is `setInt(name, b ? 1 : 0)` and stores the
integer 1 or 0, and the uniforms at other (program, location) pairs are unchanged.  The same
holds for the pair `shader.use(); shader.setFloat("hOffset", 0.5)` of `Exercise_3.5`, where
`use` makes the shader the active program. -/
theorem uniform_round_trip (d : Driver) (s : Shader) (name : Text) (w : World) (loc : GLint)
    (hactive : w.activeProgram = s.ID)
    (hloc : (glGetUniformLocation d s.ID name w).1 = loc)
    (hfound : loc ≠ notFound) :
    (∀ v : GLint,
      (s.setInt d name v w).uniforms s.ID loc = some (.int v) ∧
      ∀ p l, (p, l) ≠ (s.ID, loc) → (s.setInt d name v w).uniforms p l = w.uniforms p l) ∧
    (∀ x : GLfloat,
      (s.setFloat d name x w).uniforms s.ID loc = some (.float x) ∧
      ∀ p l, (p, l) ≠ (s.ID, loc) → (s.setFloat d name x w).uniforms p l = w.uniforms p l) ∧
    (∀ b : Bool,
      s.setBool d name b w = s.setInt d name (if b then 1 else 0) w ∧
      (s.setBool d name b w).uniforms s.ID loc = some (.int (if b then 1 else 0)) ∧
      ∀ p l, (p, l) ≠ (s.ID, loc) → (s.setBool d name b w).uniforms p l = w.uniforms p l) ∧
    (∀ (w0 : World) (loc0 : GLint),
      (glGetUniformLocation d s.ID "hOffset".toList (s.use w0)).1 = loc0 → loc0 ≠ notFound →
      (Exercise_3_5.useAndSet d s w0).uniforms s.ID loc0 = some (.float Exercise_3_5.half) ∧
      ∀ p l, (p, l) ≠ (s.ID, loc0) →
        (Exercise_3_5.useAndSet d s w0).uniforms p l = w0.uniforms p l) := by
  subst hloc
  refine ⟨fun v => Shader.setInt_stores d s name v w hactive hfound,
    fun x => Shader.setFloat_stores d s name x w hactive hfound, ?_, ?_⟩
  · intro b
    have hb : s.setBool d name b w = s.setInt d name (if b then 1 else 0) w := rfl
    rw [hb]
    exact ⟨rfl, Shader.setInt_stores d s name _ w hactive hfound⟩
  · intro w0 loc0 hloc0 hfound0
    subst hloc0
    exact Shader.setFloat_stores d s "hOffset".toList Exercise_3_5.half (s.use w0) rfl hfound0

/-- Witness for C8: with the sample driver the name `hOffset` resolves to location 0 in the
program 3, which is active after `use`, and the theorem applies. -/
theorem uniform_round_trip_witness :
    (Shader.use { ID := 3 } World.fresh).activeProgram = 3 ∧
    (glGetUniformLocation (sampleDriver 1 1 1 [] [] []) 3 "hOffset".toList
      (Shader.use { ID := 3 } World.fresh)).1 = 0 ∧
    (0 : GLint) ≠ notFound ∧
    (Shader.setInt (sampleDriver 1 1 1 [] [] []) { ID := 3 } "hOffset".toList 7
      (Shader.use { ID := 3 } World.fresh)).uniforms 3 0 = some (.int 7) :=
  ⟨rfl, by decide, by decide,
    ((uniform_round_trip (sampleDriver 1 1 1 [] [] []) { ID := 3 } "hOffset".toList
      (Shader.use { ID := 3 } World.fresh) 0 rfl (by decide) (by decide)).1 7).1⟩

/-- C9: for a `Shader` and a name that is not among the active uniforms of its program, name
resolution yields the sentinel -1, and `setBool`, `setInt` and `setFloat` return a state in
which the uniform state of every program, the active-program slot, the live set and the
output are what they were: the calls are recorded and nothing else changes.  The three
functions are total, so they complete and raise nothing. -/
theorem missing_uniform_is_noop (d : Driver) (s : Shader) (name : Text) (w : World)
    (hmiss : (d.activeUniforms w s.ID).lookup (cstring name) = none) :
    (glGetUniformLocation d s.ID name w).1 = notFound ∧
    (∀ v : GLint,
      s.setInt d name v w =
        { w with calls := w.calls ++ [.glGetUniformLocation s.ID (cstring name),
            .glUniform1i notFound v] } ∧
      (s.setInt d name v w).uniforms = w.uniforms ∧
      (s.setInt d name v w).activeProgram = w.activeProgram) ∧
    (∀ x : GLfloat,
      s.setFloat d name x w =
        { w with calls := w.calls ++ [.glGetUniformLocation s.ID (cstring name),
            .glUniform1f notFound x] } ∧
      (s.setFloat d name x w).uniforms = w.uniforms ∧
      (s.setFloat d name x w).activeProgram = w.activeProgram) ∧
    (∀ b : Bool,
      s.setBool d name b w =
        { w with calls := w.calls ++ [.glGetUniformLocation s.ID (cstring name),
            .glUniform1i notFound (if b then 1 else 0)] } ∧
      (s.setBool d name b w).uniforms = w.uniforms ∧
      (s.setBool d name b w).activeProgram = w.activeProgram) := by
  have hloc : (glGetUniformLocation d s.ID name w).1 = notFound := by
    simp only [glGetUniformLocation, hmiss, Option.getD_none]
  refine ⟨hloc, ?_, ?_, ?_⟩
  · intro v
    simp only [Shader.setInt, glGetUniformLocation, hmiss, Option.getD_none, glUniform1i,
      eq_self_iff_true, if_true, World.log, List.append_assoc, List.singleton_append,
      and_self]
  · intro x
    simp only [Shader.setFloat, glGetUniformLocation, hmiss, Option.getD_none, glUniform1f,
      eq_self_iff_true, if_true, World.log, List.append_assoc, List.singleton_append,
      and_self]
  · intro b
    simp only [Shader.setBool, glGetUniformLocation, hmiss, Option.getD_none, glUniform1i,
      eq_self_iff_true, if_true, World.log, List.append_assoc, List.singleton_append,
      and_self]

/-- Witness for C9: the sample driver has no active uniform `ourColor`, and the theorem
applies: the write leaves the uniform state as it was. -/
theorem missing_uniform_is_noop_witness :
    ((sampleDriver 1 1 1 [] [] []).activeUniforms World.fresh 3).lookup
      (cstring "ourColor".toList) = none ∧
    (Shader.setInt (sampleDriver 1 1 1 [] [] []) { ID := 3 } "ourColor".toList 7
      World.fresh).uniforms = World.fresh.uniforms :=
  ⟨by decide,
    ((missing_uniform_is_noop (sampleDriver 1 1 1 [] [] []) { ID := 3 } "ourColor".toList
      World.fresh (by decide)).2.1 7).2.1⟩

/-! ## C10: a failed build aborts `main` -/

/-- The value `create_shader_program` returns is non-zero exactly when all three statuses of
the attempt are success. -/
theorem Shaders_Vertex.create_shader_program_ne_zero_iff (d : Driver) (p : GLuint)
    (v f : Text) (w : World) :
    (Shaders_Vertex.create_shader_program d p v f w).1 ≠ 0 ↔
      (Attempt.of d v f w).vertexStatus ≠ 0 ∧ (Attempt.of d v f w).fragmentStatus ≠ 0 ∧
        (Attempt.of d v f w).linkStatus ≠ 0 := by
  have h := Shaders_Vertex.create_shader_program_value d p v f w
  rw [Prod.mk.injEq] at h
  by_cases hv : (Attempt.of d v f w).vertexStatus = 0
  · rw [if_pos (Or.inl hv)] at h
    simp [h.1, hv]
  by_cases hf : (Attempt.of d v f w).fragmentStatus = 0
  · rw [if_pos (Or.inr hf)] at h
    simp [h.1, hf]
  by_cases hl : (Attempt.of d v f w).linkStatus = 0
  · rw [if_neg (fun h => h.elim hv hf), if_pos hl] at h
    simp [h.1, hl]
  · rw [if_neg (fun h => h.elim hv hf), if_neg hl] at h
    simp [h.1, hv, hf, hl]

/-- The effect of `setInt` on a state with any program bound, when the name resolves. -/
theorem Shader.setInt_writes_bound (d : Driver) (s : Shader) (name : Text) (v : GLint)
    (w : World) (hfound : (glGetUniformLocation d s.ID name w).1 ≠ notFound) :
    (s.setInt d name v w).uniforms w.activeProgram (glGetUniformLocation d s.ID name w).1 =
      some (.int v) ∧
    (∀ p l, (p, l) ≠ (w.activeProgram, (glGetUniformLocation d s.ID name w).1) →
      (s.setInt d name v w).uniforms p l = w.uniforms p l) ∧
    (s.setInt d name v w).activeProgram = w.activeProgram := by
  simp only [glGetUniformLocation] at hfound
  simp only [Shader.setInt, glGetUniformLocation, glUniform1i, if_neg hfound, World.store,
    World.log]
  refine ⟨by simp, ?_, trivial⟩
  intro p l hpl
  have : ¬(p = w.activeProgram ∧
      l = ((d.activeUniforms w s.ID).lookup (cstring name)).getD notFound) :=
    fun h => hpl (by rw [h.1, h.2])
  simp [this]

/-- The effect of `setFloat` on a state with any program bound, when the name resolves. -/
theorem Shader.setFloat_writes_bound (d : Driver) (s : Shader) (name : Text) (x : GLfloat)
    (w : World) (hfound : (glGetUniformLocation d s.ID name w).1 ≠ notFound) :
    (s.setFloat d name x w).uniforms w.activeProgram (glGetUniformLocation d s.ID name w).1 =
      some (.float x) ∧
    (∀ p l, (p, l) ≠ (w.activeProgram, (glGetUniformLocation d s.ID name w).1) →
      (s.setFloat d name x w).uniforms p l = w.uniforms p l) ∧
    (s.setFloat d name x w).activeProgram = w.activeProgram := by
  simp only [glGetUniformLocation] at hfound
  simp only [Shader.setFloat, glGetUniformLocation, glUniform1f, if_neg hfound, World.store,
    World.log]
  refine ⟨by simp, ?_, trivial⟩
  intro p l hpl
  have : ¬(p = w.activeProgram ∧
      l = ((d.activeUniforms w s.ID).lookup (cstring name)).getD notFound) :=
    fun h => hpl (by rw [h.1, h.2])
  simp [this]

/-- A write that stores at (`bound`, `location`) and nowhere else is a write to the bound
program in the sense of `WritesToBound`, for any other program `owner`. -/
theorem writesToBound_of_store (before after : World) (owner bound : GLuint) (location : GLint)
    (value : Scalar) (hne : owner ≠ bound)
    (h1 : after.uniforms bound location = some value)
    (h2 : ∀ p l, (p, l) ≠ (bound, location) → after.uniforms p l = before.uniforms p l)
    (h3 : after.activeProgram = bound) :
    WritesToBound before after owner bound location value :=
  ⟨h1, fun l => h2 owner l (fun h => hne (congrArg Prod.fst h)), h2, h3⟩

/-- The effect of `setInt` when the name resolves to the sentinel: nothing is stored. -/
theorem Shader.setInt_of_notFound (d : Driver) (s : Shader) (name : Text) (v : GLint)
    (w : World) (h : (glGetUniformLocation d s.ID name w).1 = notFound) :
    (s.setInt d name v w).uniforms = w.uniforms ∧
    (s.setInt d name v w).activeProgram = w.activeProgram := by
  simp only [Shader.setInt]
  rw [h]
  simp only [glUniform1i, eq_self_iff_true, if_true, World.log, glGetUniformLocation, and_self]

/-- The effect of `setFloat` when the name resolves to the sentinel: nothing is stored. -/
theorem Shader.setFloat_of_notFound (d : Driver) (s : Shader) (name : Text) (x : GLfloat)
    (w : World) (h : (glGetUniformLocation d s.ID name w).1 = notFound) :
    (s.setFloat d name x w).uniforms = w.uniforms ∧
    (s.setFloat d name x w).activeProgram = w.activeProgram := by
  simp only [Shader.setFloat]
  rw [h]
  simp only [glUniform1f, eq_self_iff_true, if_true, World.log, glGetUniformLocation, and_self]

/-- Counterexample to C11: the shaders A (program 3) and B (program 4) are distinct, B is
made active, and `A.setInt("ourColor", 7)` is called with a driver in which `ourColor` is no
active uniform of program 3.  The name resolves to the sentinel -1 and nothing is stored for
B, neither at that location nor at location 0. -/
theorem write_with_unresolved_name_stores_nothing :
    (glGetUniformLocation (sampleDriver 1 1 1 [] [] []) 3 "ourColor".toList
      (Shader.use { ID := 4 } World.fresh)).1 = notFound ∧
    (Shader.setInt (sampleDriver 1 1 1 [] [] []) { ID := 3 } "ourColor".toList 7
      (Shader.use { ID := 4 } World.fresh)).uniforms 4 notFound = none ∧
    (Shader.setInt (sampleDriver 1 1 1 [] [] []) { ID := 3 } "ourColor".toList 7
      (Shader.use { ID := 4 } World.fresh)).uniforms 4 0 = none := by
  decide

/-- C11 as amended: for two `Shader` objects A and B with different IDs, `B.use()` sets the
active-program slot to B's ID and changes nothing else of the driver state; a following
`A.setInt(name, v)` (likewise `setBool` and `setFloat`) resolves `name` against A's program;
when the resolved location is not the sentinel, it stores the value in the uniform state of B
at that location, leaves A's uniform state and every other uniform unchanged and does not
change the active-program slot; when the name resolves to the sentinel, nothing is stored
anywhere. -/
theorem uniform_write_goes_to_bound_program (d : Driver) (A B : Shader) (name : Text)
    (w : World) (hAB : A.ID ≠ B.ID) :
    B.use w = { w with calls := w.calls ++ [.glUseProgram B.ID], activeProgram := B.ID } ∧
    glGetUniformLocation d A.ID name (B.use w) =
      (((d.activeUniforms (B.use w) A.ID).lookup (cstring name)).getD notFound,
        (B.use w).log (.glGetUniformLocation A.ID (cstring name))) ∧
    ((glGetUniformLocation d A.ID name (B.use w)).1 ≠ notFound →
      (∀ v : GLint, WritesToBound (B.use w) (A.setInt d name v (B.use w)) A.ID B.ID
        (glGetUniformLocation d A.ID name (B.use w)).1 (.int v)) ∧
      (∀ x : GLfloat, WritesToBound (B.use w) (A.setFloat d name x (B.use w)) A.ID B.ID
        (glGetUniformLocation d A.ID name (B.use w)).1 (.float x)) ∧
      (∀ b : Bool, WritesToBound (B.use w) (A.setBool d name b (B.use w)) A.ID B.ID
        (glGetUniformLocation d A.ID name (B.use w)).1 (.int (if b then 1 else 0)))) ∧
    ((glGetUniformLocation d A.ID name (B.use w)).1 = notFound →
      (∀ v : GLint, (A.setInt d name v (B.use w)).uniforms = w.uniforms ∧
        (A.setInt d name v (B.use w)).activeProgram = B.ID) ∧
      (∀ x : GLfloat, (A.setFloat d name x (B.use w)).uniforms = w.uniforms ∧
        (A.setFloat d name x (B.use w)).activeProgram = B.ID) ∧
      (∀ b : Bool, (A.setBool d name b (B.use w)).uniforms = w.uniforms ∧
        (A.setBool d name b (B.use w)).activeProgram = B.ID)) := by
  have hint : (glGetUniformLocation d A.ID name (B.use w)).1 ≠ notFound → ∀ v : GLint,
      WritesToBound (B.use w) (A.setInt d name v (B.use w)) A.ID B.ID
        (glGetUniformLocation d A.ID name (B.use w)).1 (.int v) := by
    intro hfound v
    have h := Shader.setInt_writes_bound d A name v (B.use w) hfound
    exact writesToBound_of_store _ _ _ _ _ _ hAB h.1 h.2.1 h.2.2
  refine ⟨rfl, rfl, ?_, ?_⟩
  · intro hfound
    refine ⟨hint hfound, ?_, fun b => hint hfound _⟩
    intro x
    have h := Shader.setFloat_writes_bound d A name x (B.use w) hfound
    exact writesToBound_of_store _ _ _ _ _ _ hAB h.1 h.2.1 h.2.2
  · intro hmiss
    exact ⟨fun v => Shader.setInt_of_notFound d A name v (B.use w) hmiss,
      fun x => Shader.setFloat_of_notFound d A name x (B.use w) hmiss,
      fun b => Shader.setInt_of_notFound d A name _ (B.use w) hmiss⟩

/-- Witness for C11: the programs 3 and 4 are distinct, and with the sample driver
`A.setInt("hOffset", 7)` after `B.use()` stores 7 for program 4 and leaves program 3 as it
was. -/
theorem uniform_write_goes_to_bound_program_witness :
    (3 : GLuint) ≠ 4 ∧
    (Shader.setInt (sampleDriver 1 1 1 [] [] []) { ID := 3 } "hOffset".toList 7
      (Shader.use { ID := 4 } World.fresh)).uniforms 4 0 = some (.int 7) ∧
    (Shader.setInt (sampleDriver 1 1 1 [] [] []) { ID := 3 } "hOffset".toList 7
      (Shader.use { ID := 4 } World.fresh)).uniforms 3 0 = none :=
  ⟨by decide,
    (((uniform_write_goes_to_bound_program (sampleDriver 1 1 1 [] [] []) { ID := 3 }
      { ID := 4 } "hOffset".toList World.fresh (by decide)).2.2.1 (by decide)).1 7).1,
    (((uniform_write_goes_to_bound_program (sampleDriver 1 1 1 [] [] []) { ID := 3 }
      { ID := 4 } "hOffset".toList World.fresh (by decide)).2.2.1 (by decide)).1 7).2.1 0⟩

/-! ## C12: the build function and the class are one pipeline -/

/-- A run of `create_shader_program` and a run of the build part of the constructor on the
same sources, from the same state, are the same pipeline. -/
theorem Shaders_Vertex.create_shader_program_samePipeline (d : Driver) (p : GLuint)
    (v f : Text) (w : World) :
    SamePipeline w (Shader.build d v f w) (Shaders_Vertex.create_shader_program d p v f w) := by
  have hval := Shaders_Vertex.create_shader_program_value d p v f w
  rw [Prod.mk.injEq] at hval
  refine ⟨?_, ?_, ?_⟩
  · rw [Shader.build_issued, Shaders_Vertex.create_shader_program_issued]
  · rw [Shaders_Vertex.create_shader_program_ne_zero_iff, Shader.build_fst]
    by_cases hv : (Attempt.of d v f w).vertexStatus = 0
    · simp [hv, Except.isOk, Except.toBool]
    by_cases hf : (Attempt.of d v f w).fragmentStatus = 0
    · simp [hf, Except.isOk, Except.toBool]
    by_cases hl : (Attempt.of d v f w).linkStatus = 0
    · simp [hl, Except.isOk, Except.toBool]
    · simp [hv, hf, hl, Except.isOk, Except.toBool]
  · intro s hs
    rw [Shader.build_fst] at hs
    by_cases h : (Attempt.of d v f w).vertexStatus = 0 ∨
        (Attempt.of d v f w).fragmentStatus = 0 ∨ (Attempt.of d v f w).linkStatus = 0
    · rw [if_pos h] at hs
      cases hs
    · rw [if_neg h] at hs
      cases hs
      have hvf : ¬((Attempt.of d v f w).vertexStatus = 0 ∨
          (Attempt.of d v f w).fragmentStatus = 0) :=
        fun h1 => h (h1.elim Or.inl (fun h2 => Or.inr (Or.inl h2)))
      have hl : ¬(Attempt.of d v f w).linkStatus = 0 := fun h1 => h (Or.inr (Or.inr h1))
      rw [if_neg hvf, if_neg hl] at hval
      exact hval.2

/-- C12: for every vertex source text, fragment source text and driver behaviour, the build
part of the `Shader` constructor (after the sources are read) and `create_shader_program`
issue the same sequence of driver calls with the same arguments, `create_shader_program`
returns non-zero exactly when the constructor does not throw, and on success the handle
written to `*shaderProgram` equals the one stored in `Shader::ID`.  The function of
`Shaders_Vertex` is given its sources; those of `FirstTriangle` and `Exercise_2.4` read their
global sources, and are compared with the constructor on those. -/
theorem build_function_and_class_same_pipeline (d : Driver) (p : GLuint) (v f : Text)
    (w : World) :
    SamePipeline w (Shader.build d v f w) (Shaders_Vertex.create_shader_program d p v f w) ∧
    SamePipeline w
      (Shader.build d FirstTriangle.vertexShaderSource FirstTriangle.fragmentShaderSource w)
      (FirstTriangle.create_shader_program d p w) ∧
    SamePipeline w
      (Shader.build d Exercise_2_4.vertexShaderSource Exercise_2_4.fragmentShaderSource w)
      (Exercise_2_4.create_shader_program d p w) :=
  ⟨Shaders_Vertex.create_shader_program_samePipeline d p v f w,
    Shaders_Vertex.create_shader_program_samePipeline d p _ _ w,
    Shaders_Vertex.create_shader_program_samePipeline d p _ _ w⟩

/-- C12 at a concrete input: with a driver that builds the program, the constructor's build
part and `create_shader_program` of `Shaders_Vertex` issue the same fifteen calls, and the
output location holds the constructed `ID` 3. -/
theorem build_function_and_class_same_pipeline_witness :
    issued World.fresh (Shaders_Vertex.create_shader_program (sampleDriver 1 1 1 [] [] []) 0
      "void main() \x7b\x7d".toList "void main() \x7b\x7d".toList World.fresh).2.2 =
      issued World.fresh (Shader.build (sampleDriver 1 1 1 [] [] [])
        "void main() \x7b\x7d".toList "void main() \x7b\x7d".toList World.fresh).2 ∧
    (issued World.fresh (Shader.build (sampleDriver 1 1 1 [] [] [])
      "void main() \x7b\x7d".toList "void main() \x7b\x7d".toList World.fresh).2).length = 15 ∧
    (Shaders_Vertex.create_shader_program (sampleDriver 1 1 1 [] [] []) 0
      "void main() \x7b\x7d".toList "void main() \x7b\x7d".toList World.fresh).2.1 = 3 :=
  ⟨(build_function_and_class_same_pipeline (sampleDriver 1 1 1 [] [] []) 0
      "void main() \x7b\x7d".toList "void main() \x7b\x7d".toList World.fresh).1.1,
    by decide,
    (build_function_and_class_same_pipeline (sampleDriver 1 1 1 [] [] []) 0
      "void main() \x7b\x7d".toList "void main() \x7b\x7d".toList World.fresh).1.2.2
      { ID := 3 } (by decide)⟩

end LearningOpenGL
